import Mathlib

/-! # Balance driver of the two-wheeled robot (`src/BalanceDriver.h`)

A shallow embedding of the balance-control driver: the global variables of
`BalanceDriver.h` become the fields of `DriverState`, every driver function
becomes a pure state transformer, and the motor pins written through
`digitalWrite` / `analogWrite` are part of the state.

Modelling conventions
* `int`, `long`, `int16_t` values are `Int`; the conversion to `int16_t`, which
  wraps, is explicit (`toInt16`).  Signed `int` overflow is undefined in C++ and
  is not given a value of its own: `int` arithmetic is the integer arithmetic.
  `unsigned long` clock values are `Nat` reduced modulo `2^32`.
* `float` / `double` values are exact rationals (`ℚ`): rounding, infinities and
  NaN are outside the model.
* `atan2(x, z) * 180.0 / PI` and the constant `FILTER_ALPHA` (used by
  `runBalanceLoop` but defined nowhere in the sources) are parameters,
  collected in `Env`.
* Serial logging, the two displays and `drawEyes` do not touch the control
  state and are left out.
-/

namespace BalanceDriver

/-! ## Constants -/

/-- The macro `MIN_MOTOR_SPEED`. -/
def MIN_MOTOR_SPEED : Int := 80

/-- The macro `MAX_MOTOR_SPEED`. -/
def MAX_MOTOR_SPEED : Int := 255

/-- The macro `EMERGENCY_ANGLE`. -/
def EMERGENCY_ANGLE : ℚ := 30

/-- The macro `BALANCE_LOOP_TIME_MS`. -/
def BALANCE_LOOP_TIME_MS : Nat := 10

/-- Number of bytes of one burst read (`requestFrom(..., 14, true)`). -/
def BURST_LEN : Nat := 14

/-- The local constant `samples` of `calibrateMPU`. -/
def CALIBRATION_SAMPLES : Nat := 200

/-! ## Machine arithmetic -/

/-- Conversion of an `int` to `int16_t`: reduction modulo `2^16` into
`[-32768, 32767]`. -/
def toInt16 (x : Int) : Int := (x + 2 ^ 15) % 2 ^ 16 - 2 ^ 15

/-- The Arduino macro `abs(x)`, that is `((x)>0?(x):-(x))`, on an `int`.  The
negation is the integer negation: at the most negative `int`, where C++ leaves
`-(x)` undefined, the model takes the mathematical value. -/
def absInt (x : Int) : Int := if x > 0 then x else -x

/-- The Arduino macro `constrain(amt, low, high)`, that is
`((amt)<(low)?(low):((amt)>(high)?(high):(amt)))`, on integers. -/
def constrainInt (amt low high : Int) : Int :=
  if amt < low then low else if amt > high then high else amt

/-- The macro `abs(x)` on a floating-point value. -/
def absFloat (x : ℚ) : ℚ := if x > 0 then x else -x

/-- The macro `constrain(amt, low, high)` on floating-point values. -/
def constrainFloat (amt low high : ℚ) : ℚ :=
  if amt < low then low else if amt > high then high else amt

/-- The cast `(int)x` of a floating-point value: truncation toward zero. -/
def floatToInt (x : ℚ) : Int := Int.tdiv x.num (x.den : Int)

/-! ## State -/

/-- Levels of the six motor-driver pins: the direction lines `IN1`..`IN4`
(`true` = `HIGH`) and the PWM duty written to `ENA` / `ENB`. -/
structure MotorPins where
  IN1 : Bool
  IN2 : Bool
  IN3 : Bool
  IN4 : Bool
  ENA : Int
  ENB : Int
deriving DecidableEq, Repr

/-- The global variables of `BalanceDriver.h`, the motor pins, and a trace
`motorLog` of the signed wheel speeds actuated by each call of `setMotorSpeed`
(most recent first). -/
structure DriverState where
  MPU_ADDR : Nat
  Kp : ℚ
  Ki : ℚ
  Kd : ℚ
  accelXOffset : Int
  gyroYOffset : Int
  targetAngle : ℚ
  deadzone : ℚ
  lastBalanceTime : Nat
  lastError : ℚ
  errorSum : ℚ
  filteredAngle : ℚ
  gyroAngleRate : ℚ
  mpuInitialized : Bool
  motorsEnabled : Bool
  webMoveX : Int
  webMoveY : Int
  pins : MotorPins
  motorLog : List (Int × Int)
deriving DecidableEq, Repr

/-- The values the globals are defined with; all pins low, nothing actuated. -/
def initialState : DriverState where
  MPU_ADDR := 0x68
  Kp := 3
  Ki := 5 / 1000
  Kd := 3 / 10
  accelXOffset := 0
  gyroYOffset := 0
  targetAngle := -2150
  deadzone := 50
  lastBalanceTime := 0
  lastError := 0
  errorSum := 0
  filteredAngle := 0
  gyroAngleRate := 0
  mpuInitialized := false
  motorsEnabled := true
  webMoveX := 0
  webMoveY := 0
  pins := { IN1 := false, IN2 := false, IN3 := false, IN4 := false, ENA := 0, ENB := 0 }
  motorLog := []

/-- One raw sample of the burst read: the values of the expression
`(Wire.read() << 8 | Wire.read())` for the register pairs of the accel X axis,
the accel Z axis and the gyro Y axis.  Every use converts to `int16_t`
(`toInt16`), so a word may be given as its signed 16-bit value. -/
structure RawImuSample where
  ax : Int
  az : Int
  gy : Int
deriving DecidableEq, Repr

/-- What one call of `runBalanceLoop` observes: the clock `millis()`, the
number of bytes `Wire.available()` reports after the burst request, and the
register words of the burst. -/
structure TickInput where
  now : Nat
  available : Nat
  sample : RawImuSample
deriving DecidableEq, Repr

/-- Parameters the sources leave open: the constant `FILTER_ALPHA` and the
library expression `atan2(x, z) * 180.0 / PI`. -/
structure Env where
  FILTER_ALPHA : ℚ
  atan2Deg : Int → Int → ℚ

/-! ## Motor actuation -/

/-- The per-wheel part of `setMotorSpeed` (lines 235-244): small-signal snap,
raise to `MIN_MOTOR_SPEED`, cap at `MAX_MOTOR_SPEED`. -/
def wheelSpeed (speed : Int) : Int :=
  let speed := if absInt speed < 10 then 0 else speed
  let speed := if speed > 0 ∧ speed < MIN_MOTOR_SPEED then MIN_MOTOR_SPEED else speed
  let speed := if speed < 0 ∧ speed > -MIN_MOTOR_SPEED then -MIN_MOTOR_SPEED else speed
  constrainInt speed (-MAX_MOTOR_SPEED) MAX_MOTOR_SPEED

/-- The two direction lines of a wheel (forward line, reverse line) for a
signed speed (lines 247-253 and 257-263). -/
def wheelDirection (speed : Int) : Bool × Bool :=
  if speed > 0 then (true, false)
  else if speed < 0 then (false, true)
  else (false, false)

/-- The function `setMotorSpeed`. -/
def setMotorSpeed (s : DriverState) (speedLeft speedRight : Int) : DriverState :=
  let speedLeft := if !s.motorsEnabled then 0 else speedLeft
  let speedRight := if !s.motorsEnabled then 0 else speedRight
  let speedLeft := wheelSpeed speedLeft
  let speedRight := wheelSpeed speedRight
  { s with
    pins :=
      { IN1 := (wheelDirection speedLeft).1
        IN2 := (wheelDirection speedLeft).2
        ENA := absInt speedLeft
        IN3 := (wheelDirection speedRight).1
        IN4 := (wheelDirection speedRight).2
        ENB := absInt speedRight }
    motorLog := (speedLeft, speedRight) :: s.motorLog }

/-! ## External setters and telemetry -/

/-- The function `setRobotMovement`. -/
def setRobotMovement (s : DriverState) (moveX moveY : Int) : DriverState :=
  let s := { s with webMoveX := constrainInt moveX (-100) 100 }
  { s with webMoveY := constrainInt moveY (-100) 100 }

/-- The function `toggleMotors`. -/
def toggleMotors (s : DriverState) (enable : Bool) : DriverState :=
  let s := { s with motorsEnabled := enable }
  if enable then s else setMotorSpeed s 0 0

/-- The function `updatePidValues`. -/
def updatePidValues (s : DriverState) (Kp_new Ki_new Kd_new : ℚ) : DriverState :=
  let s := { s with Kp := Kp_new }
  let s := { s with Ki := Ki_new }
  { s with Kd := Kd_new }

/-- The values `getCurrentRobotStatus` writes through its reference
parameters. -/
structure RobotStatus where
  angle : ℚ
  error : ℚ
  gyroRate : ℚ
  motorSpeed : Int
  enabled : Bool
  currentKp : ℚ
  currentKi : ℚ
  currentKd : ℚ
deriving DecidableEq, Repr

/-- The function `getCurrentRobotStatus`: the state it leaves behind and the
snapshot it reports. -/
def getCurrentRobotStatus (s : DriverState) : DriverState × RobotStatus :=
  let avgSpeed := Int.tdiv (absInt s.webMoveX + absInt s.webMoveY) 2
  let motorSpeed :=
    if s.webMoveX > 0 then avgSpeed
    else if s.webMoveX < 0 then -avgSpeed
    else if s.webMoveY > 0 then avgSpeed
    else if s.webMoveY < 0 then -avgSpeed
    else 0
  (s,
    { angle := s.filteredAngle
      error := s.filteredAngle - s.targetAngle
      gyroRate := s.gyroAngleRate
      motorSpeed := motorSpeed
      enabled := s.motorsEnabled
      currentKp := s.Kp
      currentKi := s.Ki
      currentKd := s.Kd })

/-! ## Calibration and start-up -/

/-- The accumulation loop of `calibrateMPU` after `n` iterations: the pair
(`accelXSum`, `gyroYSum`); `reads i` is the burst read in iteration `i`. -/
def calibrationSums (reads : Nat → RawImuSample) : Nat → Int × Int
  | 0 => (0, 0)
  | n + 1 =>
    let sums := calibrationSums reads n
    let ax := toInt16 (reads n).ax
    let gy := toInt16 (reads n).gy
    (sums.1 + ax, sums.2 + gy)

/-- The function `calibrateMPU`: integer means of 200 samples become the
offsets; setpoint and filtered angle are reset to zero. -/
def calibrateMPU (s : DriverState) (reads : Nat → RawImuSample) : DriverState :=
  let sums := calibrationSums reads CALIBRATION_SAMPLES
  let s := { s with accelXOffset := toInt16 (Int.tdiv sums.1 (CALIBRATION_SAMPLES : Int)) }
  let s := { s with gyroYOffset := toInt16 (Int.tdiv sums.2 (CALIBRATION_SAMPLES : Int)) }
  let s := { s with targetAngle := 0 }
  { s with filteredAngle := 0 }

/-- The function `initializeI2cAndMpu`: `err68` and `err69` are the results
of `Wire.endTransmission` when probing the addresses 0x68 and 0x69 (the second
probe only happens when the first one fails). -/
def initializeI2cAndMpu (s : DriverState) (err68 err69 : Nat)
    (reads : Nat → RawImuSample) : DriverState × Bool :=
  let probe : Nat × Nat := if err68 ≠ 0 then (0x69, err69) else (0x68, err68)
  if probe.2 = 0 then
    let s := { s with MPU_ADDR := probe.1 }
    let s := { s with mpuInitialized := true }
    (calibrateMPU s reads, true)
  else
    ({ s with mpuInitialized := false }, false)

/-- The function `setupBalancer`. -/
def setupBalancer (s : DriverState) (err68 err69 : Nat)
    (reads1 reads2 : Nat → RawImuSample) : DriverState :=
  let s := setMotorSpeed s 0 0
  let r := initializeI2cAndMpu s err68 err69 reads1
  if r.2 then calibrateMPU r.1 reads2 else r.1

/-! ## The control tick -/

/-- The value of `now - lastBalanceTime` in `unsigned long` arithmetic. -/
def elapsedMs (s : DriverState) (inp : TickInput) : Nat :=
  (inp.now % 2 ^ 32 + 2 ^ 32 - s.lastBalanceTime % 2 ^ 32) % 2 ^ 32

/-- The local `dt` of `runBalanceLoop`, in seconds. -/
def tickDt (s : DriverState) (inp : TickInput) : ℚ := (elapsedMs s inp : ℚ) / 1000

/-- The local `rawAccelX`: register word minus offset, stored in `int16_t`. -/
def rawAccelX (s : DriverState) (inp : TickInput) : Int :=
  toInt16 (inp.sample.ax - s.accelXOffset)

/-- The local `rawAccelZ`. -/
def rawAccelZ (inp : TickInput) : Int := toInt16 inp.sample.az

/-- The local `rawGyroY`: register word minus offset, stored in `int16_t`. -/
def rawGyroY (s : DriverState) (inp : TickInput) : Int :=
  toInt16 (inp.sample.gy - s.gyroYOffset)

/-- The value assigned to `gyroAngleRate` (line 349). -/
def tickGyroRate (s : DriverState) (inp : TickInput) : ℚ := (rawGyroY s inp : ℚ) / 131

/-- The value assigned to `filteredAngle` by the complementary filter
(lines 346-353). -/
def tickFilteredAngle (env : Env) (s : DriverState) (inp : TickInput) : ℚ :=
  env.FILTER_ALPHA * (s.filteredAngle + tickGyroRate s inp * tickDt s inp)
    + (1 - env.FILTER_ALPHA) * env.atan2Deg (rawAccelX s inp) (rawAccelZ inp)

/-- The local `error` of the tick (line 356). -/
def tickError (env : Env) (s : DriverState) (inp : TickInput) : ℚ :=
  tickFilteredAngle env s inp - s.targetAngle

/-- The value stored in `errorSum` by the PID branch (lines 385-386). -/
def tickErrorSum (env : Env) (s : DriverState) (inp : TickInput) : ℚ :=
  constrainFloat (s.errorSum + tickError env s inp * tickDt s inp) (-100) 100

/-- The local `dError` (line 389). -/
def tickDError (env : Env) (s : DriverState) (inp : TickInput) : ℚ :=
  (tickError env s inp - s.lastError) / tickDt s inp

/-- The local `output` (line 393). -/
def tickOutput (env : Env) (s : DriverState) (inp : TickInput) : ℚ :=
  s.Kp * tickError env s inp + s.Ki * tickErrorSum env s inp + s.Kd * tickDError env s inp

/-- The local `movementBias` (line 396). -/
def movementBias (s : DriverState) : ℚ := (s.webMoveX : ℚ) / 100 * (MAX_MOTOR_SPEED : ℚ)

/-- The local `rotationBias` (line 397). -/
def rotationBias (s : DriverState) : ℚ := (s.webMoveY : ℚ) / 100 * (MAX_MOTOR_SPEED : ℚ)

/-- The local `motorSpeedLeft` (line 399). -/
def tickMotorSpeedLeft (env : Env) (s : DriverState) (inp : TickInput) : Int :=
  floatToInt (tickOutput env s inp + movementBias s + rotationBias s)

/-- The local `motorSpeedRight` (line 400). -/
def tickMotorSpeedRight (env : Env) (s : DriverState) (inp : TickInput) : Int :=
  floatToInt (tickOutput env s inp + movementBias s - rotationBias s)

/-- The tick gets past the three early returns of lines 315-333: the sensor is
initialized, the loop period has elapsed, and the burst read is complete. -/
def tickReadsSensor (s : DriverState) (inp : TickInput) : Prop :=
  s.mpuInitialized = true ∧ BALANCE_LOOP_TIME_MS ≤ elapsedMs s inp ∧ BURST_LEN ≤ inp.available

instance (s : DriverState) (inp : TickInput) : Decidable (tickReadsSensor s inp) := by
  unfold tickReadsSensor; infer_instance

/-- The function `runBalanceLoop`. -/
def runBalanceLoop (env : Env) (s : DriverState) (inp : TickInput) : DriverState :=
  if !s.mpuInitialized then setMotorSpeed s 0 0
  else
    let now := inp.now % 2 ^ 32
    if elapsedMs s inp < BALANCE_LOOP_TIME_MS then s
    else
      let dt := tickDt s inp
      let s1 := { s with lastBalanceTime := now }
      if inp.available < BURST_LEN then s1
      else
        let s2 := { s1 with gyroAngleRate := tickGyroRate s inp }
        let s3 := { s2 with filteredAngle := tickFilteredAngle env s inp }
        let error := s3.filteredAngle - s3.targetAngle
        if absFloat (s3.filteredAngle - s3.targetAngle) > EMERGENCY_ANGLE then
          { setMotorSpeed s3 0 0 with motorsEnabled := false }
        else
          let s4 := { s3 with motorsEnabled := true }
          if absFloat error < s4.deadzone then
            let s5 := setMotorSpeed s4 0 0
            let s6 := { s5 with errorSum := 0 }
            { s6 with lastError := error }
          else
            let s5 := { s4 with errorSum := s4.errorSum + error * dt }
            let s6 := { s5 with errorSum := constrainFloat s5.errorSum (-100) 100 }
            let dError := (error - s6.lastError) / dt
            let s7 := { s6 with lastError := error }
            let output := s7.Kp * error + s7.Ki * s7.errorSum + s7.Kd * dError
            let movementBias : ℚ := (s7.webMoveX : ℚ) / 100 * (MAX_MOTOR_SPEED : ℚ)
            let rotationBias : ℚ := (s7.webMoveY : ℚ) / 100 * (MAX_MOTOR_SPEED : ℚ)
            let motorSpeedLeft := floatToInt (output + movementBias + rotationBias)
            let motorSpeedRight := floatToInt (output + movementBias - rotationBias)
            setMotorSpeed s7 motorSpeedLeft motorSpeedRight

/-! ## Operations of the driver -/

/-- The calls the rest of the firmware makes into the driver: the control tick
from `loop()`, the setters and the status query from the web handlers, and the
start-up / calibration routines. -/
inductive Op where
  | tick (inp : TickInput)
  | move (moveX moveY : Int)
  | toggle (enable : Bool)
  | gains (Kp_new Ki_new Kd_new : ℚ)
  | status
  | calibrate (reads : Nat → RawImuSample)
  | setup (err68 err69 : Nat) (reads1 reads2 : Nat → RawImuSample)

/-- Effect of one operation on the driver state. -/
def step (env : Env) (s : DriverState) : Op → DriverState
  | .tick inp => runBalanceLoop env s inp
  | .move moveX moveY => setRobotMovement s moveX moveY
  | .toggle enable => toggleMotors s enable
  | .gains Kp_new Ki_new Kd_new => updatePidValues s Kp_new Ki_new Kd_new
  | .status => (getCurrentRobotStatus s).1
  | .calibrate reads => calibrateMPU s reads
  | .setup err68 err69 reads1 reads2 => setupBalancer s err68 err69 reads1 reads2

/-- Effect of a sequence of operations, first operation first. -/
def run (env : Env) (s : DriverState) : List Op → DriverState
  | [] => s
  | op :: ops => run env (step env s op) ops

/-! ## Observations used in the statements -/

/-- All four direction lines inactive and zero duty on both wheels. -/
def pinsAllLow : MotorPins :=
  { IN1 := false, IN2 := false, IN3 := false, IN4 := false, ENA := 0, ENB := 0 }

/-- The tick reads the sensor and finds the angle inside the emergency
envelope, that is, the test of line 368 fails. -/
def tickInsideEnvelope (env : Env) (s : DriverState) (inp : TickInput) : Prop :=
  tickReadsSensor s inp ∧ ¬ (absFloat (tickError env s inp) > EMERGENCY_ANGLE)

/-- The operation is not a tick that sees the angle inside the emergency
envelope. -/
def opAvoidsEnvelope (env : Env) (s : DriverState) : Op → Prop
  | .tick inp => ¬ tickInsideEnvelope env s inp
  | _ => True

/-- Along the operations `ops` executed from `s`, no tick sees the angle inside
the emergency envelope. -/
def anglesStayOutside (env : Env) : DriverState → List Op → Prop
  | _, [] => True
  | s, op :: ops => opAvoidsEnvelope env s op ∧ anglesStayOutside env (step env s op) ops

/-- The invariant `errorSum ∈ [-100, 100]`. -/
def errorSumBounded (s : DriverState) : Prop := -100 ≤ s.errorSum ∧ s.errorSum ≤ 100

/-- Exact value of `atan2(x, z) * 180 / π` for a point on a coordinate axis,
where it is rational (0 at the origin, as the C library returns); 0 is also
returned off the axes, where this function is not meant to be used. -/
def atan2DegOnAxes (x z : Int) : ℚ :=
  if x = 0 then (if z < 0 then 180 else 0)
  else if z = 0 then (if x > 0 then 90 else -90)
  else 0

/-- An environment for evaluating ticks at concrete samples that lie on a
coordinate axis, with mixing constant 0.98. -/
def sampleEnv : Env := { FILTER_ALPHA := 98 / 100, atan2Deg := atan2DegOnAxes }

/-- A calibrated driver standing upright: the initial globals after a
successful start-up with zero offsets. -/
def calibratedState : DriverState :=
  { initialState with mpuInitialized := true, targetAngle := 0 }

/-- A complete burst read at clock value `now` with the accelerometer seeing
gravity on the Z axis only and no rotation. -/
def levelTickAt (now : Nat) : TickInput :=
  { now := now, available := 14, sample := { ax := 0, az := 16384, gy := 0 } }

/-- The calibrated driver with the filtered angle preset so that the next
`levelTickAt` tick of 10 ms computes the error `e` under `sampleEnv` (the
filter multiplies the old angle by 0.98). -/
def stateWithNextError (e : ℚ) : DriverState :=
  { calibratedState with filteredAngle := e / (98 / 100) }

/-- The driver of `stateWithNextError e` with the dead-zone tuned down to 5
degrees, so that errors between 5 and 30 degrees reach the PID branch. -/
def tunedStateWithNextError (e : ℚ) : DriverState :=
  { stateWithNextError e with deadzone := 5 }

/-- A tick at clock value `now` whose burst read delivers no byte. -/
def failedReadTickAt (now : Nat) : TickInput :=
  { now := now, available := 0, sample := { ax := 0, az := 0, gy := 0 } }

/-- Calibration reads of a robot at rest with the sensor mounted upright:
gravity on the positive Z axis, small constant bias on accel X and gyro Y. -/
def uprightReads : Nat → RawImuSample := fun _ => { ax := 120, az := 16384, gy := -7 }

/-- Calibration reads of a robot at rest with the sensor mounted upside down:
gravity on the negative Z axis. -/
def invertedReads : Nat → RawImuSample := fun _ => { ax := 120, az := -16384, gy := -7 }

/-- The driver right after a successful probe and `calibrateMPU` over `reads`. -/
def calibratedWith (reads : Nat → RawImuSample) : DriverState :=
  calibrateMPU { initialState with mpuInitialized := true } reads

/-- A complete burst read at clock value `now` whose accel X and gyro Y words
equal the stored offsets of `s`, with accel Z word `az`. -/
def offsetTick (s : DriverState) (az : Int) (now : Nat) : TickInput :=
  { now := now, available := 14,
    sample := { ax := s.accelXOffset, az := az, gy := s.gyroYOffset } }

/-- The invariant of the stored motion command: both axes within
`[-100, 100]`. -/
def motionCommandBounded (s : DriverState) : Prop :=
  (-100 ≤ s.webMoveX ∧ s.webMoveX ≤ 100) ∧ (-100 ≤ s.webMoveY ∧ s.webMoveY ≤ 100)

/-- The per-wheel actuation mapping in the words of the specification: zero
below the small-signal threshold of 10, otherwise the magnitude clamped into
`[80, 255]` with the sign kept. -/
def wheelSpeedReference (speed : Int) : Int :=
  if |speed| < 10 then 0 else Int.sign speed * min (max |speed| 80) 255

/-- The tuned driver about to compute the error 20, with the motion command
(forward 50, turn 20) stored. -/
def steeringState : DriverState :=
  { tunedStateWithNextError 20 with webMoveX := 50, webMoveY := 20 }

/-- The calibrated driver whose last tick ran at clock value `last`. -/
def calibratedStateAt (last : Nat) : DriverState :=
  { calibratedState with lastBalanceTime := last }

/-- The offsets of `s` are the calibration means of the run `reads`: on each
axis the sum of the 200 samples read (as `int16_t`), divided by 200 with C
division. -/
def offsetsAreMeansOf (s : DriverState) (reads : Nat → RawImuSample) : Prop :=
  s.accelXOffset
      = Int.tdiv (Finset.sum (Finset.range 200) (fun i => toInt16 (reads i).ax)) 200
    ∧ s.gyroYOffset
      = Int.tdiv (Finset.sum (Finset.range 200) (fun i => toInt16 (reads i).gy)) 200

/-- The calibration run an operation ends with, if it performs one:
`calibrateMPU` itself, or a `setupBalancer` whose probe finds the sensor on one
of the two addresses (its second run is the last one); otherwise the run
recorded so far stays. -/
def noteCalibration (last : Option (Nat → RawImuSample)) : Op → Option (Nat → RawImuSample)
  | .calibrate reads => some reads
  | .setup err68 err69 _ reads2 => if err68 = 0 ∨ err69 = 0 then some reads2 else last
  | _ => last

/-- The most recent calibration run performed by a sequence of operations,
starting from the record `last`. -/
def lastCalibrationReads (last : Option (Nat → RawImuSample)) :
    List Op → Option (Nat → RawImuSample)
  | [] => last
  | op :: ops => lastCalibrationReads (noteCalibration last op) ops

/-- The invariant of C21, for a state `s` and the record `last` of the most
recent calibration run: an initialized sensor has a recorded run, and whenever
a run is recorded the setpoint is 0 and the offsets are the means of that
run. -/
def calibrationRecorded (s : DriverState) (last : Option (Nat → RawImuSample)) : Prop :=
  (s.mpuInitialized = true → ∃ reads, last = some reads)
    ∧ ∀ reads, last = some reads → s.targetAngle = 0 ∧ offsetsAreMeansOf s reads

/-- The invariant of the shipped configuration: dead-zone 50, empty integral,
all pins low, and only `(0, 0)` commands in the trace. -/
def shippedIdle (s : DriverState) : Prop :=
  s.deadzone = 50 ∧ s.errorSum = 0 ∧ s.pins = pinsAllLow ∧ ∀ c ∈ s.motorLog, c = ((0, 0) : Int × Int)

/-! ## Lemmas on the machine arithmetic -/

theorem absInt_of_small (x : Int) (_ : -255 ≤ x) (_ : x ≤ 255) :
    absInt x = if x > 0 then x else -x := rfl

theorem absInt_eq_abs (x : Int) : absInt x = |x| := by
  unfold absInt
  split_ifs with hp
  · exact (abs_of_pos hp).symm
  · exact (abs_of_nonpos (not_lt.mp hp)).symm

theorem absInt_zero : absInt 0 = 0 := by decide

theorem wheelSpeed_zero : wheelSpeed 0 = 0 := by decide

/-- The per-wheel mapping yields zero, or a value of magnitude within
`[80, 255]`. -/
theorem wheelSpeed_range (x : Int) :
    wheelSpeed x = 0 ∨ (80 ≤ wheelSpeed x ∧ wheelSpeed x ≤ 255)
      ∨ (-255 ≤ wheelSpeed x ∧ wheelSpeed x ≤ -80) := by
  unfold wheelSpeed constrainInt MIN_MOTOR_SPEED MAX_MOTOR_SPEED
  simp only []
  split_ifs <;> omega

/-- The PWM duty written for a wheel is zero or within `[80, 255]`. -/
theorem absInt_wheelSpeed_range (x : Int) :
    absInt (wheelSpeed x) = 0 ∨ (80 ≤ absInt (wheelSpeed x) ∧ absInt (wheelSpeed x) ≤ 255) := by
  have h := wheelSpeed_range x
  have habs := absInt_of_small (wheelSpeed x) (by omega) (by omega)
  rw [habs]
  split_ifs <;> omega

/-! ## The paths of the tick -/

theorem setMotorSpeed_zero (s : DriverState) :
    setMotorSpeed s 0 0 = { s with pins := pinsAllLow, motorLog := (0, 0) :: s.motorLog } := by
  simp [setMotorSpeed, wheelSpeed_zero, absInt_zero, wheelDirection, pinsAllLow]

/-- Sensor not initialized (lines 315-318). -/
theorem runBalanceLoop_not_initialized (env : Env) (s : DriverState) (inp : TickInput)
    (h : s.mpuInitialized = false) :
    runBalanceLoop env s inp = setMotorSpeed s 0 0 := by
  simp [runBalanceLoop, h]

/-- Rate limiter (line 321). -/
theorem runBalanceLoop_rate_limited (env : Env) (s : DriverState) (inp : TickInput)
    (hinit : s.mpuInitialized = true) (h : elapsedMs s inp < BALANCE_LOOP_TIME_MS) :
    runBalanceLoop env s inp = s := by
  simp [runBalanceLoop, hinit, h]

/-- Incomplete burst read (lines 331-333). -/
theorem runBalanceLoop_short_read (env : Env) (s : DriverState) (inp : TickInput)
    (hinit : s.mpuInitialized = true) (hrate : BALANCE_LOOP_TIME_MS ≤ elapsedMs s inp)
    (h : inp.available < BURST_LEN) :
    runBalanceLoop env s inp = { s with lastBalanceTime := inp.now % 2 ^ 32 } := by
  simp [runBalanceLoop, hinit, Nat.not_lt.mpr hrate, h]

/-- Emergency stop (lines 368-373). -/
theorem runBalanceLoop_emergency (env : Env) (s : DriverState) (inp : TickInput)
    (hread : tickReadsSensor s inp)
    (h : absFloat (tickError env s inp) > EMERGENCY_ANGLE) :
    runBalanceLoop env s inp =
      { s with
        lastBalanceTime := inp.now % 2 ^ 32
        gyroAngleRate := tickGyroRate s inp
        filteredAngle := tickFilteredAngle env s inp
        motorsEnabled := false
        pins := pinsAllLow
        motorLog := (0, 0) :: s.motorLog } := by
  obtain ⟨hinit, hrate, hlen⟩ := hread
  unfold tickError at h
  simp [runBalanceLoop, hinit, Nat.not_lt.mpr hrate, Nat.not_lt.mpr hlen, h, setMotorSpeed_zero]

/-- Dead-zone (lines 374-382). -/
theorem runBalanceLoop_deadzone (env : Env) (s : DriverState) (inp : TickInput)
    (hread : tickReadsSensor s inp)
    (hin : ¬ (absFloat (tickError env s inp) > EMERGENCY_ANGLE))
    (h : absFloat (tickError env s inp) < s.deadzone) :
    runBalanceLoop env s inp =
      { s with
        lastBalanceTime := inp.now % 2 ^ 32
        gyroAngleRate := tickGyroRate s inp
        filteredAngle := tickFilteredAngle env s inp
        motorsEnabled := true
        errorSum := 0
        lastError := tickError env s inp
        pins := pinsAllLow
        motorLog := (0, 0) :: s.motorLog } := by
  obtain ⟨hinit, hrate, hlen⟩ := hread
  unfold tickError at h hin
  simp [runBalanceLoop, hinit, Nat.not_lt.mpr hrate, Nat.not_lt.mpr hlen, h, hin,
    setMotorSpeed_zero, tickError]

/-- PID and mixer (lines 385-402). -/
theorem runBalanceLoop_pid (env : Env) (s : DriverState) (inp : TickInput)
    (hread : tickReadsSensor s inp)
    (hin : ¬ (absFloat (tickError env s inp) > EMERGENCY_ANGLE))
    (h : ¬ (absFloat (tickError env s inp) < s.deadzone)) :
    runBalanceLoop env s inp =
      setMotorSpeed
        { s with
          lastBalanceTime := inp.now % 2 ^ 32
          gyroAngleRate := tickGyroRate s inp
          filteredAngle := tickFilteredAngle env s inp
          motorsEnabled := true
          errorSum := tickErrorSum env s inp
          lastError := tickError env s inp }
        (tickMotorSpeedLeft env s inp) (tickMotorSpeedRight env s inp) := by
  obtain ⟨hinit, hrate, hlen⟩ := hread
  unfold tickError at h hin
  simp only [runBalanceLoop, hinit, Nat.not_lt.mpr hrate, Nat.not_lt.mpr hlen, h, hin,
    tickError, tickErrorSum, tickMotorSpeedLeft, tickMotorSpeedRight, tickOutput, tickDError,
    movementBias, rotationBias, Bool.not_true, Bool.false_eq_true, if_false]

/-- Every tick takes exactly one of the six paths of `runBalanceLoop`. -/
theorem runBalanceLoop_cases (env : Env) (s : DriverState) (inp : TickInput) :
    (s.mpuInitialized = false ∧ runBalanceLoop env s inp = setMotorSpeed s 0 0)
      ∨ (s.mpuInitialized = true ∧ elapsedMs s inp < BALANCE_LOOP_TIME_MS
          ∧ runBalanceLoop env s inp = s)
      ∨ (s.mpuInitialized = true ∧ BALANCE_LOOP_TIME_MS ≤ elapsedMs s inp
          ∧ inp.available < BURST_LEN
          ∧ runBalanceLoop env s inp = { s with lastBalanceTime := inp.now % 2 ^ 32 })
      ∨ (tickReadsSensor s inp ∧ absFloat (tickError env s inp) > EMERGENCY_ANGLE
          ∧ runBalanceLoop env s inp =
            { s with
              lastBalanceTime := inp.now % 2 ^ 32
              gyroAngleRate := tickGyroRate s inp
              filteredAngle := tickFilteredAngle env s inp
              motorsEnabled := false
              pins := pinsAllLow
              motorLog := (0, 0) :: s.motorLog })
      ∨ (tickInsideEnvelope env s inp ∧ absFloat (tickError env s inp) < s.deadzone
          ∧ runBalanceLoop env s inp =
            { s with
              lastBalanceTime := inp.now % 2 ^ 32
              gyroAngleRate := tickGyroRate s inp
              filteredAngle := tickFilteredAngle env s inp
              motorsEnabled := true
              errorSum := 0
              lastError := tickError env s inp
              pins := pinsAllLow
              motorLog := (0, 0) :: s.motorLog })
      ∨ (tickInsideEnvelope env s inp ∧ ¬ (absFloat (tickError env s inp) < s.deadzone)
          ∧ runBalanceLoop env s inp =
            setMotorSpeed
              { s with
                lastBalanceTime := inp.now % 2 ^ 32
                gyroAngleRate := tickGyroRate s inp
                filteredAngle := tickFilteredAngle env s inp
                motorsEnabled := true
                errorSum := tickErrorSum env s inp
                lastError := tickError env s inp }
              (tickMotorSpeedLeft env s inp) (tickMotorSpeedRight env s inp)) := by
  by_cases hinit : s.mpuInitialized = true
  · by_cases hrate : elapsedMs s inp < BALANCE_LOOP_TIME_MS
    · exact Or.inr (Or.inl ⟨hinit, hrate, runBalanceLoop_rate_limited env s inp hinit hrate⟩)
    · have hrate' := Nat.not_lt.mp hrate
      by_cases hlen : inp.available < BURST_LEN
      · exact Or.inr (Or.inr (Or.inl
          ⟨hinit, hrate', hlen, runBalanceLoop_short_read env s inp hinit hrate' hlen⟩))
      · have hread : tickReadsSensor s inp := ⟨hinit, hrate', Nat.not_lt.mp hlen⟩
        by_cases hem : absFloat (tickError env s inp) > EMERGENCY_ANGLE
        · exact Or.inr (Or.inr (Or.inr (Or.inl
            ⟨hread, hem, runBalanceLoop_emergency env s inp hread hem⟩)))
        · by_cases hdz : absFloat (tickError env s inp) < s.deadzone
          · exact Or.inr (Or.inr (Or.inr (Or.inr (Or.inl
              ⟨⟨hread, hem⟩, hdz, runBalanceLoop_deadzone env s inp hread hem hdz⟩))))
          · exact Or.inr (Or.inr (Or.inr (Or.inr (Or.inr
              ⟨⟨hread, hem⟩, hdz, runBalanceLoop_pid env s inp hread hem hdz⟩))))
  · have hinit' : s.mpuInitialized = false := by simpa using hinit
    exact Or.inl ⟨hinit', runBalanceLoop_not_initialized env s inp hinit'⟩

/-! ## Motors at rest are only started by a tick inside the envelope -/

theorem runBalanceLoop_pins_of_not_inside (env : Env) (s : DriverState) (inp : TickInput)
    (h : ¬ tickInsideEnvelope env s inp) (hp : s.pins = pinsAllLow) :
    (runBalanceLoop env s inp).pins = pinsAllLow := by
  rcases runBalanceLoop_cases env s inp with
    ⟨_, e⟩ | ⟨_, _, e⟩ | ⟨_, _, _, e⟩ | ⟨_, _, e⟩ | ⟨hin, _⟩ | ⟨hin, _⟩
  · rw [e, setMotorSpeed_zero]
  · rw [e, hp]
  · rw [e]; exact hp
  · rw [e]
  · exact absurd hin h
  · exact absurd hin h

theorem calibrateMPU_pins (s : DriverState) (reads : Nat → RawImuSample) :
    (calibrateMPU s reads).pins = s.pins := by
  simp only [calibrateMPU]

theorem setupBalancer_pins (s : DriverState) (err68 err69 : Nat)
    (reads1 reads2 : Nat → RawImuSample) :
    (setupBalancer s err68 err69 reads1 reads2).pins = pinsAllLow := by
  unfold setupBalancer initializeI2cAndMpu
  simp only [setMotorSpeed_zero]
  split_ifs <;> simp_all [calibrateMPU_pins]

theorem step_pins_of_avoids (env : Env) (s : DriverState) (op : Op)
    (h : opAvoidsEnvelope env s op) (hp : s.pins = pinsAllLow) :
    (step env s op).pins = pinsAllLow := by
  cases op with
  | tick inp => exact runBalanceLoop_pins_of_not_inside env s inp h hp
  | move moveX moveY => exact hp
  | toggle enable =>
    cases enable
    · simp [step, toggleMotors, setMotorSpeed_zero]
    · exact hp
  | gains a b c => exact hp
  | status => exact hp
  | calibrate reads => exact (calibrateMPU_pins s reads).trans hp
  | setup e1 e2 r1 r2 => exact setupBalancer_pins s e1 e2 r1 r2

theorem run_pins_of_staysOutside (env : Env) (ops : List Op) :
    ∀ s : DriverState, s.pins = pinsAllLow → anglesStayOutside env s ops →
      (run env s ops).pins = pinsAllLow := by
  induction ops with
  | nil => intro s hp _; exact hp
  | cons op ops ih =>
    intro s hp h
    exact ih (step env s op) (step_pins_of_avoids env s op h.1 hp) h.2

theorem anglesStayOutside_initial_segment (env : Env) (pre rest : List Op) :
    ∀ s : DriverState, anglesStayOutside env s (pre ++ rest) → anglesStayOutside env s pre := by
  induction pre with
  | nil => intro s _; trivial
  | cons op pre ih =>
    intro s h
    exact ⟨h.1, ih (step env s op) h.2⟩

theorem runBalanceLoop_emergency_pins (env : Env) (s : DriverState) (inp : TickInput)
    (hread : tickReadsSensor s inp)
    (hem : absFloat (tickError env s inp) > EMERGENCY_ANGLE) :
    (runBalanceLoop env s inp).pins = pinsAllLow := by
  rw [runBalanceLoop_emergency env s inp hread hem]

/-! ## The anti-windup bound -/

theorem constrainFloat_bounds (amt low high : ℚ) (h : low ≤ high) :
    low ≤ constrainFloat amt low high ∧ constrainFloat amt low high ≤ high := by
  unfold constrainFloat
  split_ifs with h1 h2
  · exact ⟨le_refl _, h⟩
  · exact ⟨h, le_refl _⟩
  · exact ⟨not_lt.mp h1, not_lt.mp h2⟩

theorem runBalanceLoop_errorSumBounded (env : Env) (s : DriverState) (inp : TickInput)
    (h : errorSumBounded s) : errorSumBounded (runBalanceLoop env s inp) := by
  rcases runBalanceLoop_cases env s inp with
    ⟨_, e⟩ | ⟨_, _, e⟩ | ⟨_, _, _, e⟩ | ⟨_, _, e⟩ | ⟨_, _, e⟩ | ⟨_, _, e⟩
  · rw [e, setMotorSpeed_zero]; exact h
  · rw [e]; exact h
  · rw [e]; exact h
  · rw [e]; exact h
  · rw [e]; norm_num [errorSumBounded]
  · rw [e]
    exact constrainFloat_bounds _ (-100) 100 (by norm_num)

theorem calibrateMPU_errorSum (s : DriverState) (reads : Nat → RawImuSample) :
    (calibrateMPU s reads).errorSum = s.errorSum := by
  simp only [calibrateMPU]

theorem setupBalancer_errorSum (s : DriverState) (err68 err69 : Nat)
    (reads1 reads2 : Nat → RawImuSample) :
    (setupBalancer s err68 err69 reads1 reads2).errorSum = s.errorSum := by
  unfold setupBalancer initializeI2cAndMpu
  simp only [setMotorSpeed_zero]
  split_ifs <;> simp_all [calibrateMPU_errorSum]

theorem step_errorSumBounded (env : Env) (s : DriverState) (op : Op)
    (h : errorSumBounded s) : errorSumBounded (step env s op) := by
  cases op with
  | tick inp => exact runBalanceLoop_errorSumBounded env s inp h
  | move moveX moveY => exact h
  | toggle enable =>
    cases enable
    · simpa [step, toggleMotors, setMotorSpeed_zero, errorSumBounded] using h
    · exact h
  | gains a b c => exact h
  | status => exact h
  | calibrate reads =>
    unfold errorSumBounded step
    rw [calibrateMPU_errorSum]; exact h
  | setup e1 e2 r1 r2 =>
    unfold errorSumBounded step
    rw [setupBalancer_errorSum]; exact h

theorem run_errorSumBounded (env : Env) (ops : List Op) :
    ∀ s : DriverState, errorSumBounded s → errorSumBounded (run env s ops) := by
  induction ops with
  | nil => intro s h; exact h
  | cons op ops ih => intro s h; exact ih _ (step_errorSumBounded env s op h)

/-! ## Evaluation of concrete ticks -/

theorem stateWithNextError_reads (e : ℚ) (now : Nat) (h1 : 10 ≤ now) (h2 : now < 2 ^ 32) :
    tickReadsSensor (stateWithNextError e) (levelTickAt now) := by
  refine ⟨rfl, ?_, by simp [BURST_LEN, levelTickAt]⟩
  simp only [elapsedMs, stateWithNextError, calibratedState, initialState, levelTickAt,
    BALANCE_LOOP_TIME_MS]
  omega

theorem stateWithNextError_error (e : ℚ) (now : Nat) :
    tickError sampleEnv (stateWithNextError e) (levelTickAt now) = e := by
  simp [tickError, tickFilteredAngle, tickGyroRate, rawGyroY, rawAccelX, rawAccelZ, toInt16,
    stateWithNextError, calibratedState, initialState, levelTickAt, sampleEnv, atan2DegOnAxes]
  field_simp
  ring

theorem tunedStateWithNextError_reads (e : ℚ) (now : Nat) (h1 : 10 ≤ now) (h2 : now < 2 ^ 32) :
    tickReadsSensor (tunedStateWithNextError e) (levelTickAt now) :=
  stateWithNextError_reads e now h1 h2

theorem tunedStateWithNextError_error (e : ℚ) (now : Nat) :
    tickError sampleEnv (tunedStateWithNextError e) (levelTickAt now) = e :=
  stateWithNextError_error e now

theorem tuned_tick_in_pid_branch :
    ¬ (absFloat (tickError sampleEnv (tunedStateWithNextError 20) (levelTickAt 10))
        > EMERGENCY_ANGLE)
      ∧ ¬ (absFloat (tickError sampleEnv (tunedStateWithNextError 20) (levelTickAt 10))
        < (tunedStateWithNextError 20).deadzone) := by
  rw [tunedStateWithNextError_error 20 10]
  constructor
  · norm_num [absFloat, EMERGENCY_ANGLE]
  · norm_num [absFloat, tunedStateWithNextError]

theorem tuned_tick_errorSum :
    tickErrorSum sampleEnv (tunedStateWithNextError 20) (levelTickAt 10) = 1 / 5 := by
  have hdt : tickDt (tunedStateWithNextError 20) (levelTickAt 10) = 1 / 100 := by
    norm_num [tickDt, elapsedMs, tunedStateWithNextError, stateWithNextError, calibratedState,
      initialState, levelTickAt]
  rw [tickErrorSum, tunedStateWithNextError_error 20 10, hdt]
  norm_num [constrainFloat, tunedStateWithNextError, stateWithNextError, calibratedState,
    initialState]

/-- Under `sampleEnv`, the tuned driver at error 20 computes the PID output
660.001, hence the wheel targets (660, 660). -/
theorem tuned_tick_speeds :
    tickMotorSpeedLeft sampleEnv (tunedStateWithNextError 20) (levelTickAt 10) = 660
      ∧ tickMotorSpeedRight sampleEnv (tunedStateWithNextError 20) (levelTickAt 10) = 660 := by
  have hdt : tickDt (tunedStateWithNextError 20) (levelTickAt 10) = 1 / 100 := by
    norm_num [tickDt, elapsedMs, tunedStateWithNextError, stateWithNextError, calibratedState,
      initialState, levelTickAt]
  have hout : tickOutput sampleEnv (tunedStateWithNextError 20) (levelTickAt 10)
      = 660001 / 1000 := by
    rw [tickOutput, tickDError, tuned_tick_errorSum, tunedStateWithNextError_error 20 10, hdt]
    norm_num [tunedStateWithNextError, stateWithNextError, calibratedState, initialState]
  constructor
  · rw [tickMotorSpeedLeft, hout]
    norm_num [movementBias, rotationBias, tunedStateWithNextError, stateWithNextError,
      calibratedState, initialState, floatToInt]
    rfl
  · rw [tickMotorSpeedRight, hout]
    norm_num [movementBias, rotationBias, tunedStateWithNextError, stateWithNextError,
      calibratedState, initialState, floatToInt]
    rfl

/-- Under `sampleEnv`, the tuned driver at error 20 runs the PID branch and
drives both wheels forward at full duty. -/
theorem tuned_tick_drives_motors :
    runBalanceLoop sampleEnv (tunedStateWithNextError 20) (levelTickAt 10) =
      { tunedStateWithNextError 20 with
        lastBalanceTime := 10
        filteredAngle := 20
        motorsEnabled := true
        errorSum := 1 / 5
        lastError := 20
        pins := { IN1 := true, IN2 := false, IN3 := true, IN4 := false, ENA := 255, ENB := 255 }
        motorLog := [(255, 255)] } := by
  have hread := tunedStateWithNextError_reads 20 10 (by norm_num) (by norm_num)
  rw [runBalanceLoop_pid sampleEnv _ _ hread tuned_tick_in_pid_branch.1
    tuned_tick_in_pid_branch.2]
  rw [tuned_tick_speeds.1, tuned_tick_speeds.2, tuned_tick_errorSum,
    tunedStateWithNextError_error 20 10]
  simp [setMotorSpeed, tickGyroRate, rawGyroY, toInt16, tickFilteredAngle, rawAccelX, rawAccelZ,
    tunedStateWithNextError, stateWithNextError, calibratedState, initialState, levelTickAt,
    sampleEnv, atan2DegOnAxes, wheelSpeed, absInt, constrainInt, wheelDirection,
    MIN_MOTOR_SPEED, MAX_MOTOR_SPEED]
  norm_num

/-! ## The PID branch -/

theorem constrainFloat_eq_max_min (amt low high : ℚ) (h : low ≤ high) :
    constrainFloat amt low high = max low (min amt high) := by
  unfold constrainFloat
  split_ifs with h1 h2
  · rw [max_eq_left]
    exact le_trans (min_le_left _ _) (le_of_lt h1)
  · rw [min_eq_right (le_of_lt h2), max_eq_right h]
  · rw [min_eq_left (not_lt.mp h2), max_eq_right (not_lt.mp h1)]

theorem setMotorSpeed_motorLog (s : DriverState) (speedLeft speedRight : Int)
    (hon : s.motorsEnabled = true) :
    (setMotorSpeed s speedLeft speedRight).motorLog
      = (wheelSpeed speedLeft, wheelSpeed speedRight) :: s.motorLog := by
  simp [setMotorSpeed, hon]

theorem lastError_of_next_error (e l : ℚ) (now : Nat) :
    tickError sampleEnv { tunedStateWithNextError e with lastError := l } (levelTickAt now) = e :=
  stateWithNextError_error e now

/-! ## The complementary filter -/

theorem toInt16_zero : toInt16 0 = 0 := by decide

/-- A tick that reads the sensor stores the filter outputs on every path. -/
theorem runBalanceLoop_filter_state (env : Env) (s : DriverState) (inp : TickInput)
    (hread : tickReadsSensor s inp) :
    (runBalanceLoop env s inp).filteredAngle = tickFilteredAngle env s inp
      ∧ (runBalanceLoop env s inp).gyroAngleRate = tickGyroRate s inp := by
  by_cases hem : absFloat (tickError env s inp) > EMERGENCY_ANGLE
  · rw [runBalanceLoop_emergency env s inp hread hem]
    exact ⟨rfl, rfl⟩
  · by_cases hdz : absFloat (tickError env s inp) < s.deadzone
    · rw [runBalanceLoop_deadzone env s inp hread hem hdz]
      exact ⟨rfl, rfl⟩
    · rw [runBalanceLoop_pid env s inp hread hem hdz]
      exact ⟨rfl, rfl⟩

theorem calibratedWith_fields (reads : Nat → RawImuSample) :
    (calibratedWith reads).filteredAngle = 0 ∧ (calibratedWith reads).targetAngle = 0
      ∧ (calibratedWith reads).mpuInitialized = true
      ∧ (calibratedWith reads).lastBalanceTime = 0 := by
  simp only [calibratedWith, calibrateMPU, initialState, and_self]

theorem offsetTick_reads (reads : Nat → RawImuSample) (az : Int) :
    tickReadsSensor (calibratedWith reads) (offsetTick (calibratedWith reads) az 10) := by
  refine ⟨(calibratedWith_fields reads).2.2.1, ?_, by simp [BURST_LEN, offsetTick]⟩
  simp only [elapsedMs, (calibratedWith_fields reads).2.2.2, offsetTick, BALANCE_LOOP_TIME_MS]
  norm_num

/-! ## The stored motion command -/

theorem constrainInt_eq_max_min (amt low high : Int) (h : low ≤ high) :
    constrainInt amt low high = max low (min amt high) := by
  unfold constrainInt
  split_ifs with h1 h2
  · rw [max_eq_left]
    exact le_trans (min_le_left _ _) (le_of_lt h1)
  · rw [min_eq_right (le_of_lt h2), max_eq_right h]
  · rw [min_eq_left (not_lt.mp h2), max_eq_right (not_lt.mp h1)]

theorem constrainInt_bounds (amt low high : Int) (h : low ≤ high) :
    low ≤ constrainInt amt low high ∧ constrainInt amt low high ≤ high := by
  unfold constrainInt
  split_ifs <;> omega

theorem runBalanceLoop_motion_command (env : Env) (s : DriverState) (inp : TickInput) :
    (runBalanceLoop env s inp).webMoveX = s.webMoveX
      ∧ (runBalanceLoop env s inp).webMoveY = s.webMoveY := by
  rcases runBalanceLoop_cases env s inp with
    ⟨_, e⟩ | ⟨_, _, e⟩ | ⟨_, _, _, e⟩ | ⟨_, _, e⟩ | ⟨_, _, e⟩ | ⟨_, _, e⟩ <;>
  rw [e] <;> exact ⟨rfl, rfl⟩

theorem setupBalancer_motion_command (s : DriverState) (err68 err69 : Nat)
    (reads1 reads2 : Nat → RawImuSample) :
    (setupBalancer s err68 err69 reads1 reads2).webMoveX = s.webMoveX
      ∧ (setupBalancer s err68 err69 reads1 reads2).webMoveY = s.webMoveY := by
  unfold setupBalancer initializeI2cAndMpu
  simp only [setMotorSpeed_zero]
  split_ifs <;> simp_all [calibrateMPU]

theorem step_motionCommandBounded (env : Env) (s : DriverState) (op : Op)
    (h : motionCommandBounded s) : motionCommandBounded (step env s op) := by
  cases op with
  | tick inp =>
    obtain ⟨hx, hy⟩ := runBalanceLoop_motion_command env s inp
    unfold motionCommandBounded step
    rw [hx, hy]; exact h
  | move moveX moveY =>
    exact ⟨constrainInt_bounds moveX (-100) 100 (by decide),
      constrainInt_bounds moveY (-100) 100 (by decide)⟩
  | toggle enable =>
    cases enable
    · simpa [step, toggleMotors, setMotorSpeed_zero, motionCommandBounded] using h
    · exact h
  | gains a b c => exact h
  | status => exact h
  | calibrate reads =>
    unfold motionCommandBounded step
    simp only [calibrateMPU]; exact h
  | setup e1 e2 r1 r2 =>
    obtain ⟨hx, hy⟩ := setupBalancer_motion_command s e1 e2 r1 r2
    unfold motionCommandBounded step
    rw [hx, hy]; exact h

theorem run_motionCommandBounded (env : Env) (ops : List Op) :
    ∀ s : DriverState, motionCommandBounded s → motionCommandBounded (run env s ops) := by
  induction ops with
  | nil => intro s h; exact h
  | cons op ops ih => intro s h; exact ih _ (step_motionCommandBounded env s op h)

/-! ## The per-wheel mapping against its reference -/

theorem wheelSpeedReference_of_pos (x : Int) (h : 0 < x) :
    wheelSpeedReference x = if x < 10 then 0 else min (max x 80) 255 := by
  unfold wheelSpeedReference
  rw [abs_of_pos h, Int.sign_eq_one_of_pos h, one_mul]

theorem wheelSpeedReference_of_neg (x : Int) (h : x < 0) :
    wheelSpeedReference x = if -x < 10 then 0 else -(min (max (-x) 80) 255) := by
  unfold wheelSpeedReference
  rw [abs_of_neg h, Int.sign_eq_neg_one_of_neg h, neg_one_mul]

theorem wheelSpeed_eq_reference (x : Int) :
    wheelSpeed x = wheelSpeedReference x := by
  rcases lt_trichotomy x 0 with hneg | rfl | hpos
  · rw [wheelSpeedReference_of_neg x hneg]
    unfold wheelSpeed absInt constrainInt MIN_MOTOR_SPEED MAX_MOTOR_SPEED
    simp only []
    split_ifs <;> omega
  · decide
  · rw [wheelSpeedReference_of_pos x hpos]
    unfold wheelSpeed absInt constrainInt MIN_MOTOR_SPEED MAX_MOTOR_SPEED
    simp only []
    split_ifs <;> omega

/-! ## The clock -/

theorem runBalanceLoop_calibration_fields (env : Env) (s : DriverState) (inp : TickInput) :
    (runBalanceLoop env s inp).mpuInitialized = s.mpuInitialized
      ∧ (runBalanceLoop env s inp).targetAngle = s.targetAngle
      ∧ (runBalanceLoop env s inp).accelXOffset = s.accelXOffset
      ∧ (runBalanceLoop env s inp).gyroYOffset = s.gyroYOffset
      ∧ (runBalanceLoop env s inp).deadzone = s.deadzone := by
  rcases runBalanceLoop_cases env s inp with
    ⟨_, e⟩ | ⟨_, _, e⟩ | ⟨_, _, _, e⟩ | ⟨_, _, e⟩ | ⟨_, _, e⟩ | ⟨_, _, e⟩ <;>
  rw [e] <;> exact ⟨rfl, rfl, rfl, rfl, rfl⟩

/-! ## The shipped dead-zone -/

/-- With dead-zone 50 no error is inside the envelope and outside the
dead-zone. -/
theorem no_pid_with_shipped_deadzone (env : Env) (s : DriverState) (inp : TickInput)
    (hdz : s.deadzone = 50) :
    ¬ (tickInsideEnvelope env s inp ∧ ¬ (absFloat (tickError env s inp) < s.deadzone)) := by
  rintro ⟨⟨_, hin⟩, hout⟩
  rw [hdz] at hout
  unfold EMERGENCY_ANGLE at hin
  have h1 := not_lt.mp hin
  have h2 := not_lt.mp hout
  linarith

theorem runBalanceLoop_shippedIdle (env : Env) (s : DriverState) (inp : TickInput)
    (h : shippedIdle s) : shippedIdle (runBalanceLoop env s inp) := by
  obtain ⟨hdz, hsum, hpins, hlog⟩ := h
  have hlog' : ∀ c ∈ ((0, 0) : Int × Int) :: s.motorLog, c = ((0, 0) : Int × Int) := by
    intro c hc
    rcases List.mem_cons.mp hc with rfl | hc
    · rfl
    · exact hlog c hc
  rcases runBalanceLoop_cases env s inp with
    ⟨_, e⟩ | ⟨_, _, e⟩ | ⟨_, _, _, e⟩ | ⟨_, _, e⟩ | ⟨_, _, e⟩ | ⟨hin, hout, _⟩
  · rw [e, setMotorSpeed_zero]; exact ⟨hdz, hsum, rfl, hlog'⟩
  · rw [e]; exact ⟨hdz, hsum, hpins, hlog⟩
  · rw [e]; exact ⟨hdz, hsum, hpins, hlog⟩
  · rw [e]; exact ⟨hdz, hsum, rfl, hlog'⟩
  · rw [e]; exact ⟨hdz, rfl, rfl, hlog'⟩
  · exact absurd ⟨hin, hout⟩ (no_pid_with_shipped_deadzone env s inp hdz)

theorem calibrateMPU_shippedIdle (s : DriverState) (reads : Nat → RawImuSample)
    (h : shippedIdle s) : shippedIdle (calibrateMPU s reads) := by
  simp only [shippedIdle, calibrateMPU]
  exact h

theorem setMotorSpeed_zero_shippedIdle (s : DriverState)
    (hdz : s.deadzone = 50) (hsum : s.errorSum = 0)
    (hlog : ∀ c ∈ s.motorLog, c = ((0, 0) : Int × Int)) :
    shippedIdle (setMotorSpeed s 0 0) := by
  rw [setMotorSpeed_zero]
  refine ⟨hdz, hsum, rfl, ?_⟩
  intro c hc
  rcases List.mem_cons.mp hc with rfl | hc
  · rfl
  · exact hlog c hc

theorem setupBalancer_shippedIdle (s : DriverState) (err68 err69 : Nat)
    (reads1 reads2 : Nat → RawImuSample) (h : shippedIdle s) :
    shippedIdle (setupBalancer s err68 err69 reads1 reads2) := by
  have h0 := setMotorSpeed_zero_shippedIdle s h.1 h.2.1 h.2.2.2
  unfold setupBalancer initializeI2cAndMpu
  by_cases hp : (if err68 ≠ 0 then ((0x69 : Nat), err69) else ((0x68 : Nat), err68)).2 = 0
  · simp only [hp, if_true]
    apply calibrateMPU_shippedIdle
    apply calibrateMPU_shippedIdle
    exact h0
  · simp only [hp, if_false, Bool.false_eq_true]
    exact h0

theorem step_shippedIdle (env : Env) (s : DriverState) (op : Op)
    (h : shippedIdle s) : shippedIdle (step env s op) := by
  cases op with
  | tick inp => exact runBalanceLoop_shippedIdle env s inp h
  | move moveX moveY => exact h
  | toggle enable =>
    cases enable
    · exact setMotorSpeed_zero_shippedIdle _ h.1 h.2.1 h.2.2.2
    · exact h
  | gains a b c => exact h
  | status => exact h
  | calibrate reads => exact calibrateMPU_shippedIdle s reads h
  | setup e1 e2 r1 r2 => exact setupBalancer_shippedIdle s e1 e2 r1 r2 h

theorem run_shippedIdle (env : Env) (ops : List Op) :
    ∀ s : DriverState, shippedIdle s → shippedIdle (run env s ops) := by
  induction ops with
  | nil => intro s h; exact h
  | cons op ops ih => intro s h; exact ih _ (step_shippedIdle env s op h)

theorem initialState_shippedIdle : shippedIdle initialState := by
  refine ⟨rfl, rfl, rfl, ?_⟩
  intro c hc
  simp [initialState] at hc

theorem setupBalancer_deadzone (s : DriverState) (err68 err69 : Nat)
    (reads1 reads2 : Nat → RawImuSample) :
    (setupBalancer s err68 err69 reads1 reads2).deadzone = s.deadzone := by
  unfold setupBalancer initializeI2cAndMpu
  by_cases hp : (if err68 ≠ 0 then ((0x69 : Nat), err69) else ((0x68 : Nat), err68)).2 = 0
  · simp only [hp, if_true, calibrateMPU, setMotorSpeed_zero]
  · simp only [hp, if_false, Bool.false_eq_true, setMotorSpeed_zero]

/-- No operation writes `deadzone`. -/
theorem step_deadzone (env : Env) (s : DriverState) (op : Op) :
    (step env s op).deadzone = s.deadzone := by
  cases op with
  | tick inp => exact (runBalanceLoop_calibration_fields env s inp).2.2.2.2
  | move moveX moveY => rfl
  | toggle enable =>
    cases enable
    · simp [step, toggleMotors, setMotorSpeed_zero]
    · rfl
  | gains a b c => rfl
  | status => rfl
  | calibrate reads => simp only [step, calibrateMPU]
  | setup e1 e2 r1 r2 => exact setupBalancer_deadzone s e1 e2 r1 r2

theorem runBalanceLoop_motorLog_shipped (env : Env) (s : DriverState) (inp : TickInput)
    (hdz : s.deadzone = 50) :
    (runBalanceLoop env s inp).motorLog = s.motorLog
      ∨ (runBalanceLoop env s inp).motorLog = (0, 0) :: s.motorLog := by
  rcases runBalanceLoop_cases env s inp with
    ⟨_, e⟩ | ⟨_, _, e⟩ | ⟨_, _, _, e⟩ | ⟨_, _, e⟩ | ⟨_, _, e⟩ | ⟨hin, hout, _⟩
  · right; rw [e, setMotorSpeed_zero]
  · left; rw [e]
  · left; rw [e]
  · right; rw [e]
  · right; rw [e]
  · exact absurd ⟨hin, hout⟩ (no_pid_with_shipped_deadzone env s inp hdz)

/-! ## The enable flag across a tick -/

theorem runBalanceLoop_flag_irrelevant (env : Env) (s : DriverState) (inp : TickInput)
    (b : Bool) (hread : tickReadsSensor s inp) :
    runBalanceLoop env { s with motorsEnabled := b } inp = runBalanceLoop env s inp := by
  have hread' : tickReadsSensor { s with motorsEnabled := b } inp := hread
  have herr : tickError env { s with motorsEnabled := b } inp = tickError env s inp := rfl
  by_cases hem : absFloat (tickError env s inp) > EMERGENCY_ANGLE
  · rw [runBalanceLoop_emergency env s inp hread hem,
      runBalanceLoop_emergency env _ inp hread' (herr ▸ hem)]
    rfl
  · by_cases hdz : absFloat (tickError env s inp) < s.deadzone
    · rw [runBalanceLoop_deadzone env s inp hread hem hdz,
        runBalanceLoop_deadzone env _ inp hread' (herr ▸ hem) (herr ▸ hdz)]
      rfl
    · rw [runBalanceLoop_pid env s inp hread hem hdz,
        runBalanceLoop_pid env _ inp hread' (herr ▸ hem) (herr ▸ hdz)]
      rfl

theorem runBalanceLoop_flag_after (env : Env) (s : DriverState) (inp : TickInput)
    (hread : tickReadsSensor s inp) :
    (absFloat (tickError env s inp) > EMERGENCY_ANGLE →
        (runBalanceLoop env s inp).motorsEnabled = false)
      ∧ (¬ (absFloat (tickError env s inp) > EMERGENCY_ANGLE) →
        (runBalanceLoop env s inp).motorsEnabled = true) := by
  constructor
  · intro hem
    rw [runBalanceLoop_emergency env s inp hread hem]
  · intro hem
    by_cases hdz : absFloat (tickError env s inp) < s.deadzone
    · rw [runBalanceLoop_deadzone env s inp hread hem hdz]
    · rw [runBalanceLoop_pid env s inp hread hem hdz]
      rfl

theorem runBalanceLoop_error_after (env : Env) (s : DriverState) (inp : TickInput)
    (hread : tickReadsSensor s inp) :
    (runBalanceLoop env s inp).filteredAngle - (runBalanceLoop env s inp).targetAngle
      = tickError env s inp := by
  rw [(runBalanceLoop_filter_state env s inp hread).1,
    (runBalanceLoop_calibration_fields env s inp).2.1]
  rfl

/-! ## Sixteen-bit conversions -/

theorem toInt16_of_range (x : Int) (h1 : -32768 ≤ x) (h2 : x ≤ 32767) : toInt16 x = x := by
  unfold toInt16
  omega

theorem toInt16_range (x : Int) : -32768 ≤ toInt16 x ∧ toInt16 x ≤ 32767 := by
  unfold toInt16
  omega

/-! ## Calibration means -/

theorem calibrationSums_eq_sum (reads : Nat → RawImuSample) (n : Nat) :
    calibrationSums reads n
      = (Finset.sum (Finset.range n) (fun i => toInt16 (reads i).ax),
          Finset.sum (Finset.range n) (fun i => toInt16 (reads i).gy)) := by
  induction n with
  | zero => simp [calibrationSums]
  | succ n ih =>
    simp only [calibrationSums, ih, Finset.sum_range_succ]

theorem sum_range_congr_of_lt (f g : Nat → Int) (n : Nat) (h : ∀ i, i < n → f i = g i) :
    Finset.sum (Finset.range n) f = Finset.sum (Finset.range n) g :=
  Finset.sum_congr rfl (fun i hi => h i (Finset.mem_range.mp hi))

theorem sum_range_bounds (f : Nat → Int) (lo hi : Int) (n : Nat)
    (h : ∀ i, i < n → lo ≤ f i ∧ f i ≤ hi) :
    (n : Int) * lo ≤ Finset.sum (Finset.range n) f
      ∧ Finset.sum (Finset.range n) f ≤ (n : Int) * hi := by
  induction n with
  | zero => simp
  | succ n ih =>
    have h1 := ih (fun i hi => h i (Nat.lt_succ_of_lt hi))
    have h2 := h n (Nat.lt_succ_self n)
    rw [Finset.sum_range_succ]
    push_cast
    constructor
    · linarith [h1.1, h2.1]
    · linarith [h1.2, h2.2]

/-- The C quotient of a sum of 200 values lies between any bounds of the
values. -/
theorem tdiv_mean_bounds (S lo hi : Int) (h1 : 200 * lo ≤ S) (h2 : S ≤ 200 * hi) :
    lo ≤ Int.tdiv S 200 ∧ Int.tdiv S 200 ≤ hi := by
  rcases le_or_lt 0 S with hS | hS
  · rw [Int.tdiv_eq_ediv hS (by decide)]
    omega
  · have hneg : Int.tdiv S 200 = -((-S) / 200) := by
      have h := Int.neg_tdiv (-S) 200
      rw [neg_neg] at h
      rw [h, Int.tdiv_eq_ediv (by omega) (by decide)]
    rw [hneg]
    omega

/-- Frame of `calibrateMPU`: only the two offsets, the setpoint and the
filtered angle are written. -/
theorem calibrateMPU_frame (s : DriverState) (reads : Nat → RawImuSample) :
    calibrateMPU s reads =
      { s with
        accelXOffset := (calibrateMPU s reads).accelXOffset
        gyroYOffset := (calibrateMPU s reads).gyroYOffset
        targetAngle := 0
        filteredAngle := 0 } := by
  simp only [calibrateMPU]

theorem calibrateMPU_offsets (s : DriverState) (reads : Nat → RawImuSample)
    (hrange : ∀ i, i < 200 →
      (-32768 ≤ (reads i).ax ∧ (reads i).ax ≤ 32767)
        ∧ (-32768 ≤ (reads i).gy ∧ (reads i).gy ≤ 32767)) :
    (calibrateMPU s reads).accelXOffset
        = Int.tdiv (Finset.sum (Finset.range 200) (fun i => (reads i).ax)) 200
      ∧ (calibrateMPU s reads).gyroYOffset
        = Int.tdiv (Finset.sum (Finset.range 200) (fun i => (reads i).gy)) 200 := by
  have hsx : Finset.sum (Finset.range 200) (fun i => toInt16 (reads i).ax)
      = Finset.sum (Finset.range 200) (fun i => (reads i).ax) :=
    sum_range_congr_of_lt _ _ 200
      (fun i hi => toInt16_of_range _ (hrange i hi).1.1 (hrange i hi).1.2)
  have hsg : Finset.sum (Finset.range 200) (fun i => toInt16 (reads i).gy)
      = Finset.sum (Finset.range 200) (fun i => (reads i).gy) :=
    sum_range_congr_of_lt _ _ 200
      (fun i hi => toInt16_of_range _ (hrange i hi).2.1 (hrange i hi).2.2)
  have bx := sum_range_bounds (fun i => (reads i).ax) (-32768) 32767 200
    (fun i hi => (hrange i hi).1)
  have bg := sum_range_bounds (fun i => (reads i).gy) (-32768) 32767 200
    (fun i hi => (hrange i hi).2)
  have mx := tdiv_mean_bounds _ (-32768) 32767 (by simpa using bx.1) (by simpa using bx.2)
  have mg := tdiv_mean_bounds _ (-32768) 32767 (by simpa using bg.1) (by simpa using bg.2)
  simp only [calibrateMPU, CALIBRATION_SAMPLES, calibrationSums_eq_sum, hsx, hsg, Nat.cast_ofNat]
  exact ⟨toInt16_of_range _ mx.1 mx.2, toInt16_of_range _ mg.1 mg.2⟩

theorem uprightReads_in_range (i : Nat) (_ : i < 200) :
    (-32768 ≤ (uprightReads i).ax ∧ (uprightReads i).ax ≤ 32767)
      ∧ (-32768 ≤ (uprightReads i).gy ∧ (uprightReads i).gy ≤ 32767) := by
  simp [uprightReads]

/-! ## The motor-speed summary -/

theorem status_motorSpeed_of_bounded (s : DriverState) (h : motionCommandBounded s) :
    (getCurrentRobotStatus s).2.motorSpeed
      = (if s.webMoveX ≠ 0 then Int.sign s.webMoveX else Int.sign s.webMoveY)
          * ((|s.webMoveX| + |s.webMoveY|) / 2) := by
  obtain ⟨⟨hx1, hx2⟩, ⟨hy1, hy2⟩⟩ := h
  have hax := absInt_of_small s.webMoveX (by omega) (by omega)
  have hay := absInt_of_small s.webMoveY (by omega) (by omega)
  have habsx : absInt s.webMoveX = |s.webMoveX| := by
    rw [hax]; split_ifs with hp
    · exact (abs_of_pos hp).symm
    · exact (abs_of_nonpos (not_lt.mp hp)).symm
  have habsy : absInt s.webMoveY = |s.webMoveY| := by
    rw [hay]; split_ifs with hp
    · exact (abs_of_pos hp).symm
    · exact (abs_of_nonpos (not_lt.mp hp)).symm
  have hdiv : Int.tdiv (|s.webMoveX| + |s.webMoveY|) 2 = (|s.webMoveX| + |s.webMoveY|) / 2 :=
    Int.tdiv_eq_ediv (add_nonneg (abs_nonneg _) (abs_nonneg _)) (by decide)
  simp only [getCurrentRobotStatus, habsx, habsy, hdiv]
  rcases lt_trichotomy s.webMoveX 0 with hx | hx | hx
  · simp [hx, not_lt.mpr (le_of_lt hx), ne_of_lt hx, Int.sign_eq_neg_one_of_neg hx]
  · rcases lt_trichotomy s.webMoveY 0 with hy | hy | hy
    · simp [hx, hy, not_lt.mpr (le_of_lt hy), Int.sign_eq_neg_one_of_neg hy]
    · simp [hx, hy]
    · simp [hx, hy, Int.sign_eq_one_of_pos hy]
  · simp [hx, ne_of_gt hx, Int.sign_eq_one_of_pos hx]

theorem status_motorSpeed_bounds (s : DriverState) (h : motionCommandBounded s) :
    -100 ≤ (getCurrentRobotStatus s).2.motorSpeed
      ∧ (getCurrentRobotStatus s).2.motorSpeed ≤ 100 := by
  rw [status_motorSpeed_of_bounded s h]
  obtain ⟨⟨hx1, hx2⟩, ⟨hy1, hy2⟩⟩ := h
  have hx : |s.webMoveX| ≤ 100 := abs_le.mpr ⟨hx1, hx2⟩
  have hy : |s.webMoveY| ≤ 100 := abs_le.mpr ⟨hy1, hy2⟩
  have h0x := abs_nonneg s.webMoveX
  have h0y := abs_nonneg s.webMoveY
  have havg0 : 0 ≤ (|s.webMoveX| + |s.webMoveY|) / 2 := by omega
  have havg : (|s.webMoveX| + |s.webMoveY|) / 2 ≤ 100 := by omega
  have hsign : ∀ z : Int, Int.sign z = 1 ∨ Int.sign z = 0 ∨ Int.sign z = -1 := by
    intro z
    rcases lt_trichotomy z 0 with hz | hz | hz
    · exact Or.inr (Or.inr (Int.sign_eq_neg_one_of_neg hz))
    · exact Or.inr (Or.inl (by rw [hz]; rfl))
    · exact Or.inl (Int.sign_eq_one_of_pos hz)
  split_ifs
  · rcases hsign s.webMoveX with e | e | e <;> rw [e] <;> constructor <;> omega
  · rcases hsign s.webMoveY with e | e | e <;> rw [e] <;> constructor <;> omega

theorem wheelSpeed_of_neg (x : Int) (hx : x < 0) :
    wheelSpeed x = if -x < 10 then 0 else -(min (max (-x) 80) 255) := by
  rw [wheelSpeed_eq_reference, wheelSpeedReference_of_neg x hx]

theorem wheelSpeed_of_pos (x : Int) (hx : 0 < x) :
    wheelSpeed x = if x < 10 then 0 else min (max x 80) 255 := by
  rw [wheelSpeed_eq_reference, wheelSpeedReference_of_pos x hx]

theorem wheelSpeed_snapped (x : Int) (h : |x| < 10) : wheelSpeed x = 0 := by
  rw [wheelSpeed_eq_reference, wheelSpeedReference, if_pos h]

theorem wheelSpeed_raised (x : Int) (h1 : 10 ≤ |x|) (h2 : |x| < 80) : |wheelSpeed x| = 80 := by
  rcases lt_trichotomy x 0 with hx | hx | hx
  · rw [abs_of_neg hx] at h1 h2
    have hw : wheelSpeed x = -80 := by
      rw [wheelSpeed_of_neg x hx]; split_ifs <;> omega
    rw [hw]; decide
  · rw [hx] at h1; exact absurd h1 (by decide)
  · rw [abs_of_pos hx] at h1 h2
    have hw : wheelSpeed x = 80 := by
      rw [wheelSpeed_of_pos x hx]; split_ifs <;> omega
    rw [hw]; decide

theorem wheelSpeed_capped (x : Int) (h1 : 255 < |x|) : |wheelSpeed x| = 255 := by
  rcases lt_trichotomy x 0 with hx | hx | hx
  · rw [abs_of_neg hx] at h1
    have hw : wheelSpeed x = -255 := by
      rw [wheelSpeed_of_neg x hx]; split_ifs <;> omega
    rw [hw]; decide
  · rw [hx] at h1; exact absurd h1 (by decide)
  · rw [abs_of_pos hx] at h1
    have hw : wheelSpeed x = 255 := by
      rw [wheelSpeed_of_pos x hx]; split_ifs <;> omega
    rw [hw]; decide

theorem wheelSpeed_passed (x : Int) (h1 : 80 ≤ |x|) (h2 : |x| ≤ 255) : wheelSpeed x = x := by
  rcases lt_trichotomy x 0 with hx | hx | hx
  · rw [abs_of_neg hx] at h1 h2
    rw [wheelSpeed_of_neg x hx]; split_ifs <;> omega
  · rw [hx] at h1; exact absurd h1 (by decide)
  · rw [abs_of_pos hx] at h1 h2
    rw [wheelSpeed_of_pos x hx]; split_ifs <;> omega

theorem wheelSpeed_sign (x : Int) (h1 : 10 ≤ |x|) :
    Int.sign (wheelSpeed x) = Int.sign x := by
  rcases lt_trichotomy x 0 with hx | hx | hx
  · rw [abs_of_neg hx] at h1
    have hw : wheelSpeed x < 0 := by
      rw [wheelSpeed_of_neg x hx]; split_ifs <;> omega
    rw [Int.sign_eq_neg_one_of_neg hw, Int.sign_eq_neg_one_of_neg hx]
  · rw [hx] at h1; exact absurd h1 (by decide)
  · rw [abs_of_pos hx] at h1
    have hw : 0 < wheelSpeed x := by
      rw [wheelSpeed_of_pos x hx]; split_ifs <;> omega
    rw [Int.sign_eq_one_of_pos hw, Int.sign_eq_one_of_pos hx]

theorem setMotorSpeed_enabled_outputs (st : DriverState) (speedLeft speedRight : Int)
    (hon : st.motorsEnabled = true) :
    (setMotorSpeed st speedLeft speedRight).motorLog
        = (wheelSpeed speedLeft, wheelSpeed speedRight) :: st.motorLog
      ∧ (setMotorSpeed st speedLeft speedRight).pins.ENA = |wheelSpeed speedLeft|
      ∧ (setMotorSpeed st speedLeft speedRight).pins.ENB = |wheelSpeed speedRight| := by
  refine ⟨setMotorSpeed_motorLog st speedLeft speedRight hon, ?_, ?_⟩
  · simp only [setMotorSpeed, hon, Bool.not_true, Bool.false_eq_true, if_false]
    exact absInt_eq_abs _
  · simp only [setMotorSpeed, hon, Bool.not_true, Bool.false_eq_true, if_false]
    exact absInt_eq_abs _

/-! ## The record of the last calibration -/

/-- After `calibrateMPU` the offsets are the means of the samples read. -/
theorem calibrateMPU_means (s : DriverState) (reads : Nat → RawImuSample) :
    offsetsAreMeansOf (calibrateMPU s reads) reads := by
  have bx := sum_range_bounds (fun i => toInt16 (reads i).ax) (-32768) 32767 200
    (fun i _ => toInt16_range _)
  have bg := sum_range_bounds (fun i => toInt16 (reads i).gy) (-32768) 32767 200
    (fun i _ => toInt16_range _)
  have mx := tdiv_mean_bounds _ (-32768) 32767 (by simpa using bx.1) (by simpa using bx.2)
  have mg := tdiv_mean_bounds _ (-32768) 32767 (by simpa using bg.1) (by simpa using bg.2)
  simp only [offsetsAreMeansOf, calibrateMPU, CALIBRATION_SAMPLES, calibrationSums_eq_sum,
    Nat.cast_ofNat]
  exact ⟨toInt16_of_range _ mx.1 mx.2, toInt16_of_range _ mg.1 mg.2⟩

theorem calibrateMPU_setpoint (s : DriverState) (reads : Nat → RawImuSample) :
    (calibrateMPU s reads).targetAngle = 0
      ∧ (calibrateMPU s reads).mpuInitialized = s.mpuInitialized := by
  simp only [calibrateMPU, and_self]

theorem probe_finds_iff (err68 err69 : Nat) :
    (if err68 ≠ 0 then ((0x69 : Nat), err69) else ((0x68 : Nat), err68)).2 = 0
      ↔ (err68 = 0 ∨ err69 = 0) := by
  by_cases h : err68 = 0
  · simp [h]
  · simp [h]

/-- If the probe finds the sensor, `setupBalancer` ends with `calibrateMPU` over
`reads2` on an initialized driver. -/
theorem setupBalancer_found (s : DriverState) (err68 err69 : Nat)
    (reads1 reads2 : Nat → RawImuSample) (h : err68 = 0 ∨ err69 = 0) :
    ∃ t : DriverState, t.mpuInitialized = true
      ∧ setupBalancer s err68 err69 reads1 reads2 = calibrateMPU t reads2 := by
  have hp := (probe_finds_iff err68 err69).mpr h
  unfold setupBalancer initializeI2cAndMpu
  simp only [hp, if_true]
  exact ⟨_, (calibrateMPU_setpoint _ reads1).2, rfl⟩

/-- If the probe fails on both addresses, `setupBalancer` only stops the motors
and flags the sensor uninitialized. -/
theorem setupBalancer_not_found (s : DriverState) (err68 err69 : Nat)
    (reads1 reads2 : Nat → RawImuSample) (h : ¬ (err68 = 0 ∨ err69 = 0)) :
    setupBalancer s err68 err69 reads1 reads2
      = { s with mpuInitialized := false, pins := pinsAllLow, motorLog := (0, 0) :: s.motorLog } := by
  have hp : ¬ (if err68 ≠ 0 then ((0x69 : Nat), err69) else ((0x68 : Nat), err68)).2 = 0 :=
    fun hc => h ((probe_finds_iff err68 err69).mp hc)
  unfold setupBalancer initializeI2cAndMpu
  simp only [hp, if_false, Bool.false_eq_true, setMotorSpeed_zero]

theorem calibrationRecorded_of_fields (s t : DriverState) (last : Option (Nat → RawImuSample))
    (h : calibrationRecorded s last)
    (h1 : t.mpuInitialized = s.mpuInitialized) (h2 : t.targetAngle = s.targetAngle)
    (h3 : t.accelXOffset = s.accelXOffset) (h4 : t.gyroYOffset = s.gyroYOffset) :
    calibrationRecorded t last := by
  refine ⟨fun ht => h.1 (h1 ▸ ht), ?_⟩
  intro reads hr
  obtain ⟨ha, hx, hy⟩ := h.2 reads hr
  exact ⟨h2.trans ha, h3.trans hx, h4.trans hy⟩

theorem calibrationRecorded_calibrateMPU (s : DriverState) (reads : Nat → RawImuSample) :
    calibrationRecorded (calibrateMPU s reads) (some reads) := by
  refine ⟨fun _ => ⟨reads, rfl⟩, ?_⟩
  intro r hr
  have e : reads = r := Option.some.inj hr
  subst e
  exact ⟨(calibrateMPU_setpoint s reads).1, calibrateMPU_means s reads⟩

theorem step_calibrationRecorded (env : Env) (s : DriverState) (op : Op)
    (last : Option (Nat → RawImuSample)) (h : calibrationRecorded s last) :
    calibrationRecorded (step env s op) (noteCalibration last op) := by
  cases op with
  | tick inp =>
    obtain ⟨h1, h2, h3, h4, _⟩ := runBalanceLoop_calibration_fields env s inp
    exact calibrationRecorded_of_fields s _ last h h1 h2 h3 h4
  | move moveX moveY => exact calibrationRecorded_of_fields s _ last h rfl rfl rfl rfl
  | toggle enable =>
    cases enable
    · refine calibrationRecorded_of_fields s _ last h ?_ ?_ ?_ ?_ <;>
        simp [step, toggleMotors, setMotorSpeed_zero]
    · exact calibrationRecorded_of_fields s _ last h rfl rfl rfl rfl
  | gains a b c => exact calibrationRecorded_of_fields s _ last h rfl rfl rfl rfl
  | status => exact calibrationRecorded_of_fields s _ last h rfl rfl rfl rfl
  | calibrate reads => exact calibrationRecorded_calibrateMPU s reads
  | setup e1 e2 r1 r2 =>
    by_cases hp : e1 = 0 ∨ e2 = 0
    · obtain ⟨t, _, e⟩ := setupBalancer_found s e1 e2 r1 r2 hp
      simp only [step, noteCalibration, hp, if_true]
      rw [e]
      exact calibrationRecorded_calibrateMPU t r2
    · simp only [step, noteCalibration, hp, if_false]
      rw [setupBalancer_not_found s e1 e2 r1 r2 hp]
      refine ⟨fun hc => absurd hc (by simp), ?_⟩
      intro reads hr
      exact h.2 reads hr

theorem run_calibrationRecorded (env : Env) (ops : List Op) :
    ∀ (s : DriverState) (last : Option (Nat → RawImuSample)),
      calibrationRecorded s last →
        calibrationRecorded (run env s ops) (lastCalibrationReads last ops) := by
  induction ops with
  | nil => intro s last h; exact h
  | cons op ops ih =>
    intro s last h
    exact ih _ _ (step_calibrationRecorded env s op last h)

theorem initialState_calibrationRecorded : calibrationRecorded initialState none := by
  refine ⟨fun h => ?_, fun reads hr => ?_⟩
  · simp [initialState] at h
  · exact absurd hr (by simp)

/-! ## Theorems -/

/-! ### Motor actuation -/

/-- C1: for every pair of integer speed targets and every state (so for either
value of `motorsEnabled`), the magnitude `setMotorSpeed` writes to each wheel
(the PWM duty on `ENA` and on `ENB`) is 0 or lies in
`[MIN_MOTOR_SPEED, MAX_MOTOR_SPEED] = [80, 255]`; it is never strictly between
0 and 80. -/
theorem setMotorSpeed_magnitude_zero_or_in_range (s : DriverState)
    (speedLeft speedRight : Int) :
    ((setMotorSpeed s speedLeft speedRight).pins.ENA = 0
        ∨ (MIN_MOTOR_SPEED ≤ (setMotorSpeed s speedLeft speedRight).pins.ENA
            ∧ (setMotorSpeed s speedLeft speedRight).pins.ENA ≤ MAX_MOTOR_SPEED))
      ∧ ((setMotorSpeed s speedLeft speedRight).pins.ENB = 0
        ∨ (MIN_MOTOR_SPEED ≤ (setMotorSpeed s speedLeft speedRight).pins.ENB
            ∧ (setMotorSpeed s speedLeft speedRight).pins.ENB ≤ MAX_MOTOR_SPEED))
      ∧ ¬ (0 < (setMotorSpeed s speedLeft speedRight).pins.ENA
            ∧ (setMotorSpeed s speedLeft speedRight).pins.ENA < 80)
      ∧ ¬ (0 < (setMotorSpeed s speedLeft speedRight).pins.ENB
            ∧ (setMotorSpeed s speedLeft speedRight).pins.ENB < 80) := by
  have hl := absInt_wheelSpeed_range (if !s.motorsEnabled then 0 else speedLeft)
  have hr := absInt_wheelSpeed_range (if !s.motorsEnabled then 0 else speedRight)
  simp only [setMotorSpeed, MIN_MOTOR_SPEED, MAX_MOTOR_SPEED]
  refine ⟨hl, hr, ?_, ?_⟩ <;> omega

/-- C2: whenever `motorsEnabled` is false when `setMotorSpeed` is called, both
wheels are actuated with magnitude zero and all four direction lines are set
inactive, for every pair of requested speeds. -/
theorem setMotorSpeed_disabled_actuates_zero (s : DriverState)
    (speedLeft speedRight : Int) (hoff : s.motorsEnabled = false) :
    (setMotorSpeed s speedLeft speedRight).pins
        = { IN1 := false, IN2 := false, IN3 := false, IN4 := false, ENA := 0, ENB := 0 }
      ∧ (setMotorSpeed s speedLeft speedRight).motorLog = (0, 0) :: s.motorLog := by
  simp [setMotorSpeed, hoff, wheelSpeed_zero, absInt_zero, wheelDirection]

/-- An instance of C2: motors disabled, requested speeds 200 and -150. -/
theorem setMotorSpeed_disabled_actuates_zero_witness :
    ({ initialState with motorsEnabled := false } : DriverState).motorsEnabled = false
      ∧ (setMotorSpeed { initialState with motorsEnabled := false } 200 (-150)).pins
        = { IN1 := false, IN2 := false, IN3 := false, IN4 := false, ENA := 0, ENB := 0 }
      ∧ (setMotorSpeed { initialState with motorsEnabled := false } 200 (-150)).motorLog
        = [(0, 0)] :=
  ⟨rfl,
    setMotorSpeed_disabled_actuates_zero { initialState with motorsEnabled := false } 200 (-150)
      rfl⟩

/-! ### Emergency stop -/

/-- C3: for every tick of `runBalanceLoop` that reads the sensor successfully
and computes `|filteredAngle − targetAngle| > EMERGENCY_ANGLE`, for any prior
state, gains and motion command: after the tick `motorsEnabled` is false, both
actuated motor speeds are 0 (all pins low, the one command issued is `(0, 0)`),
and the PID/mixer is not run (`errorSum` and `lastError` keep their values). -/
theorem emergency_tick_stops_motors (env : Env) (s : DriverState) (inp : TickInput)
    (hread : tickReadsSensor s inp)
    (hem : absFloat (tickError env s inp) > EMERGENCY_ANGLE) :
    (runBalanceLoop env s inp).motorsEnabled = false
      ∧ (runBalanceLoop env s inp).pins = pinsAllLow
      ∧ (runBalanceLoop env s inp).motorLog = (0, 0) :: s.motorLog
      ∧ (runBalanceLoop env s inp).errorSum = s.errorSum
      ∧ (runBalanceLoop env s inp).lastError = s.lastError := by
  rw [runBalanceLoop_emergency env s inp hread hem]
  exact ⟨rfl, rfl, rfl, rfl, rfl⟩

/-- Scenario A, an instance of C3: error 100 with target 0. -/
theorem emergency_tick_stops_motors_witness :
    tickReadsSensor (stateWithNextError 100) (levelTickAt 10)
      ∧ absFloat (tickError sampleEnv (stateWithNextError 100) (levelTickAt 10)) > EMERGENCY_ANGLE
      ∧ (stateWithNextError 100).targetAngle = 0
      ∧ tickError sampleEnv (stateWithNextError 100) (levelTickAt 10) = 100
      ∧ (runBalanceLoop sampleEnv (stateWithNextError 100) (levelTickAt 10)).motorsEnabled = false
      ∧ (runBalanceLoop sampleEnv (stateWithNextError 100) (levelTickAt 10)).pins = pinsAllLow := by
  have hread := stateWithNextError_reads 100 10 (by norm_num) (by norm_num)
  have herr := stateWithNextError_error 100 10
  have hem : absFloat (tickError sampleEnv (stateWithNextError 100) (levelTickAt 10))
      > EMERGENCY_ANGLE := by
    rw [herr]; norm_num [absFloat, EMERGENCY_ANGLE]
  have h := emergency_tick_stops_motors sampleEnv (stateWithNextError 100) (levelTickAt 10)
    hread hem
  exact ⟨hread, hem, rfl, herr, h.1, h.2.1⟩

/-- C4: after a tick whose error exceeds the emergency envelope, both motor
speeds are zero on that tick and remain zero after every later operation, for
as long as no tick sees the angle inside the envelope, whatever external calls
(`toggleMotors`, `setRobotMovement`, `updatePidValues`, status queries,
calibration) are interleaved between the ticks: the motors are driven again
only once a tick sees the angle back inside the envelope. -/
theorem emergency_stop_persists (env : Env) (s : DriverState) (inp : TickInput)
    (ops : List Op)
    (hread : tickReadsSensor s inp)
    (hem : absFloat (tickError env s inp) > EMERGENCY_ANGLE)
    (hout : anglesStayOutside env (runBalanceLoop env s inp) ops) :
    ∀ pre : List Op, pre <+: ops →
      (run env (runBalanceLoop env s inp) pre).pins = pinsAllLow := by
  rintro pre ⟨rest, rfl⟩
  exact run_pins_of_staysOutside env pre _
    (runBalanceLoop_emergency_pins env s inp hread hem)
    (anglesStayOutside_initial_segment env pre rest _ hout)

/-- An instance of C4: an emergency tick at error 100, then the motors are
re-enabled from outside, a motion command and new gains arrive, and the next
tick still sees the error 98: all pins stay low. -/
theorem emergency_stop_persists_witness :
    tickReadsSensor (stateWithNextError 100) (levelTickAt 10)
      ∧ absFloat (tickError sampleEnv (stateWithNextError 100) (levelTickAt 10)) > EMERGENCY_ANGLE
      ∧ anglesStayOutside sampleEnv
          (runBalanceLoop sampleEnv (stateWithNextError 100) (levelTickAt 10))
          [.toggle true, .move 50 0, .gains 5 0 1, .tick (levelTickAt 20)]
      ∧ (run sampleEnv (runBalanceLoop sampleEnv (stateWithNextError 100) (levelTickAt 10))
          [.toggle true, .move 50 0, .gains 5 0 1, .tick (levelTickAt 20)]).pins = pinsAllLow := by
  have hread := stateWithNextError_reads 100 10 (by norm_num) (by norm_num)
  have hem : absFloat (tickError sampleEnv (stateWithNextError 100) (levelTickAt 10))
      > EMERGENCY_ANGLE := by
    rw [stateWithNextError_error 100 10]; norm_num [absFloat, EMERGENCY_ANGLE]
  have hout : anglesStayOutside sampleEnv
      (runBalanceLoop sampleEnv (stateWithNextError 100) (levelTickAt 10))
      [.toggle true, .move 50 0, .gains 5 0 1, .tick (levelTickAt 20)] := by
    rw [runBalanceLoop_emergency sampleEnv _ _ hread hem]
    simp [anglesStayOutside, opAvoidsEnvelope, step, toggleMotors, setRobotMovement,
      updatePidValues, tickInsideEnvelope, tickError, tickFilteredAngle, tickGyroRate, tickDt,
      rawGyroY, rawAccelX, rawAccelZ, toInt16, stateWithNextError, calibratedState, initialState,
      levelTickAt, sampleEnv, atan2DegOnAxes, absFloat, EMERGENCY_ANGLE]
    intro _
    norm_num
  exact ⟨hread, hem, hout,
    emergency_stop_persists sampleEnv (stateWithNextError 100) (levelTickAt 10) _ hread hem hout
      _ (List.prefix_refl _)⟩

/-! ### Manual disable -/

/-- C5 (behaviour of the code): a manual disable does not persist.  After
`toggleMotors(false)` on the calibrated driver the flag is false, but the first
tick that reads the sensor with the angle inside the envelope sets
`motorsEnabled` back to true without any external call; with the dead-zone
tuned to 5 degrees, the same tick drives both wheels at full duty. -/
theorem manual_disable_undone_by_tick :
    (toggleMotors calibratedState false).motorsEnabled = false
      ∧ tickReadsSensor (toggleMotors calibratedState false) (levelTickAt 10)
      ∧ (runBalanceLoop sampleEnv (toggleMotors calibratedState false) (levelTickAt 10)).motorsEnabled
          = true
      ∧ (toggleMotors (tunedStateWithNextError 20) false).motorsEnabled = false
      ∧ (runBalanceLoop sampleEnv (toggleMotors (tunedStateWithNextError 20) false)
          (levelTickAt 10)).motorsEnabled = true
      ∧ (runBalanceLoop sampleEnv (toggleMotors (tunedStateWithNextError 20) false)
          (levelTickAt 10)).pins
          = { IN1 := true, IN2 := false, IN3 := true, IN4 := false, ENA := 255, ENB := 255 } := by
  have e0 : calibratedState = stateWithNextError 0 := by
    simp [stateWithNextError, calibratedState, initialState]
  have hread0 : tickReadsSensor (toggleMotors calibratedState false) (levelTickAt 10) := by
    rw [e0]; exact stateWithNextError_reads 0 10 (by norm_num) (by norm_num)
  have herr0 : tickError sampleEnv (toggleMotors calibratedState false) (levelTickAt 10) = 0 := by
    rw [e0]; exact stateWithNextError_error 0 10
  have hin0 : ¬ (absFloat (tickError sampleEnv (toggleMotors calibratedState false)
      (levelTickAt 10)) > EMERGENCY_ANGLE) := by
    rw [herr0]; norm_num [absFloat, EMERGENCY_ANGLE]
  have hdz0 : absFloat (tickError sampleEnv (toggleMotors calibratedState false)
      (levelTickAt 10)) < (toggleMotors calibratedState false).deadzone := by
    rw [herr0]; norm_num [absFloat, toggleMotors, setMotorSpeed, calibratedState, initialState]
  have hread : tickReadsSensor (toggleMotors (tunedStateWithNextError 20) false)
      (levelTickAt 10) := tunedStateWithNextError_reads 20 10 (by norm_num) (by norm_num)
  have herr : tickError sampleEnv (toggleMotors (tunedStateWithNextError 20) false)
      (levelTickAt 10) = 20 := tunedStateWithNextError_error 20 10
  have hin : ¬ (absFloat (tickError sampleEnv (toggleMotors (tunedStateWithNextError 20) false)
      (levelTickAt 10)) > EMERGENCY_ANGLE) := by
    rw [herr]; norm_num [absFloat, EMERGENCY_ANGLE]
  have hdz : ¬ (absFloat (tickError sampleEnv (toggleMotors (tunedStateWithNextError 20) false)
      (levelTickAt 10)) < (toggleMotors (tunedStateWithNextError 20) false).deadzone) := by
    rw [herr]
    norm_num [absFloat, toggleMotors, setMotorSpeed, tunedStateWithNextError, stateWithNextError,
      calibratedState, initialState]
  have hspeeds :
      tickMotorSpeedLeft sampleEnv (toggleMotors (tunedStateWithNextError 20) false)
          (levelTickAt 10) = 660
        ∧ tickMotorSpeedRight sampleEnv (toggleMotors (tunedStateWithNextError 20) false)
          (levelTickAt 10) = 660 := by
    have hl : tickMotorSpeedLeft sampleEnv (toggleMotors (tunedStateWithNextError 20) false)
        (levelTickAt 10) = tickMotorSpeedLeft sampleEnv (tunedStateWithNextError 20)
        (levelTickAt 10) := rfl
    have hr : tickMotorSpeedRight sampleEnv (toggleMotors (tunedStateWithNextError 20) false)
        (levelTickAt 10) = tickMotorSpeedRight sampleEnv (tunedStateWithNextError 20)
        (levelTickAt 10) := rfl
    rw [hl, hr]
    exact tuned_tick_speeds
  refine ⟨rfl, hread0, ?_, rfl, ?_, ?_⟩
  · rw [runBalanceLoop_deadzone sampleEnv _ _ hread0 hin0 hdz0]
  · rw [runBalanceLoop_pid sampleEnv _ _ hread hin hdz]
    rfl
  · rw [runBalanceLoop_pid sampleEnv _ _ hread hin hdz, hspeeds.1, hspeeds.2]
    simp [setMotorSpeed, wheelSpeed, absInt, constrainInt, wheelDirection,
      MIN_MOTOR_SPEED, MAX_MOTOR_SPEED]

/-! ### Dead-zone -/

/-- C6 as stated fails: with the driver calibrated, `deadzone = 50`, prior
`errorSum = 7` and `lastError = 0`, a tick that reads the sensor and computes
the error 40 has `|error| < deadzone`, yet afterwards `errorSum` is still 7 and
`lastError` is still 0: the emergency test (`|error| > 30`) comes first. -/
theorem deadzone_claim_fails_beyond_envelope :
    tickReadsSensor { stateWithNextError 40 with errorSum := 7 } (levelTickAt 10)
      ∧ absFloat (tickError sampleEnv { stateWithNextError 40 with errorSum := 7 } (levelTickAt 10))
          < ({ stateWithNextError 40 with errorSum := 7 } : DriverState).deadzone
      ∧ (runBalanceLoop sampleEnv { stateWithNextError 40 with errorSum := 7 }
          (levelTickAt 10)).errorSum ≠ 0
      ∧ (runBalanceLoop sampleEnv { stateWithNextError 40 with errorSum := 7 }
          (levelTickAt 10)).lastError
          ≠ tickError sampleEnv { stateWithNextError 40 with errorSum := 7 } (levelTickAt 10) := by
  have hread : tickReadsSensor { stateWithNextError 40 with errorSum := 7 } (levelTickAt 10) :=
    stateWithNextError_reads 40 10 (by norm_num) (by norm_num)
  have herr : tickError sampleEnv { stateWithNextError 40 with errorSum := 7 } (levelTickAt 10)
      = 40 := stateWithNextError_error 40 10
  have hem : absFloat (tickError sampleEnv { stateWithNextError 40 with errorSum := 7 }
      (levelTickAt 10)) > EMERGENCY_ANGLE := by
    rw [herr]; norm_num [absFloat, EMERGENCY_ANGLE]
  refine ⟨hread, ?_, ?_, ?_⟩
  · rw [herr]; norm_num [absFloat, stateWithNextError, calibratedState, initialState]
  · rw [runBalanceLoop_emergency sampleEnv _ _ hread hem]
    norm_num
  · rw [runBalanceLoop_emergency sampleEnv _ _ hread hem, herr]
    norm_num [stateWithNextError, calibratedState, initialState]

/-- C6 (amended): for every tick of `runBalanceLoop` that reads the sensor
successfully and has `|error| ≤ EMERGENCY_ANGLE` and `|error| < deadzone`, for
any prior PID state: the motor command is exactly zero on both wheels,
`errorSum` is 0 afterwards, and `lastError` equals that tick's error. -/
theorem deadzone_tick_inside_envelope (env : Env) (s : DriverState) (inp : TickInput)
    (hread : tickReadsSensor s inp)
    (hin : absFloat (tickError env s inp) ≤ EMERGENCY_ANGLE)
    (hdz : absFloat (tickError env s inp) < s.deadzone) :
    (runBalanceLoop env s inp).pins = pinsAllLow
      ∧ (runBalanceLoop env s inp).motorLog = (0, 0) :: s.motorLog
      ∧ (runBalanceLoop env s inp).errorSum = 0
      ∧ (runBalanceLoop env s inp).lastError = tickError env s inp := by
  rw [runBalanceLoop_deadzone env s inp hread (not_lt.mpr hin) hdz]
  exact ⟨rfl, rfl, rfl, rfl⟩

/-- Scenario B, an instance of the amended C6: error 25, dead-zone 50,
`Kp = 3`, `Ki = 0.005`, `Kd = 0.3`, previous error 0, `dt = 0.01`. -/
theorem deadzone_tick_inside_envelope_witness :
    tickReadsSensor (stateWithNextError 25) (levelTickAt 10)
      ∧ absFloat (tickError sampleEnv (stateWithNextError 25) (levelTickAt 10)) ≤ EMERGENCY_ANGLE
      ∧ absFloat (tickError sampleEnv (stateWithNextError 25) (levelTickAt 10))
          < (stateWithNextError 25).deadzone
      ∧ tickError sampleEnv (stateWithNextError 25) (levelTickAt 10) = 25
      ∧ (stateWithNextError 25).deadzone = 50
      ∧ (stateWithNextError 25).Kp = 3
      ∧ (stateWithNextError 25).Ki = 5 / 1000
      ∧ (stateWithNextError 25).Kd = 3 / 10
      ∧ (stateWithNextError 25).lastError = 0
      ∧ tickDt (stateWithNextError 25) (levelTickAt 10) = 1 / 100
      ∧ (runBalanceLoop sampleEnv (stateWithNextError 25) (levelTickAt 10)).pins = pinsAllLow
      ∧ (runBalanceLoop sampleEnv (stateWithNextError 25) (levelTickAt 10)).errorSum = 0
      ∧ (runBalanceLoop sampleEnv (stateWithNextError 25) (levelTickAt 10)).lastError = 25 := by
  have hread := stateWithNextError_reads 25 10 (by norm_num) (by norm_num)
  have herr := stateWithNextError_error 25 10
  have hin : absFloat (tickError sampleEnv (stateWithNextError 25) (levelTickAt 10))
      ≤ EMERGENCY_ANGLE := by
    rw [herr]; norm_num [absFloat, EMERGENCY_ANGLE]
  have hdz : absFloat (tickError sampleEnv (stateWithNextError 25) (levelTickAt 10))
      < (stateWithNextError 25).deadzone := by
    rw [herr]; norm_num [absFloat, stateWithNextError, calibratedState, initialState]
  have h := deadzone_tick_inside_envelope sampleEnv (stateWithNextError 25) (levelTickAt 10)
    hread hin hdz
  refine ⟨hread, hin, hdz, herr, rfl, rfl, rfl, rfl, rfl, ?_, h.1, h.2.2.1, h.2.2.2.trans herr⟩
  norm_num [tickDt, elapsedMs, stateWithNextError, calibratedState, initialState, levelTickAt]

/-! ### Anti-windup bound -/

/-- C7: `errorSum` lies in `[-100, 100]` in the initial state, the bound is
preserved by every operation of the driver (a tick on any of its paths, for
every error magnitude and every `dt`; the setters; the status query;
calibration and start-up), and so it holds after every sequence of operations
from the initial state. -/
theorem errorSum_bounded_invariant (env : Env) :
    errorSumBounded initialState
      ∧ (∀ (s : DriverState) (op : Op), errorSumBounded s → errorSumBounded (step env s op))
      ∧ (∀ ops : List Op, errorSumBounded (run env initialState ops)) := by
  have hinit : errorSumBounded initialState := by
    norm_num [errorSumBounded, initialState]
  refine ⟨hinit, step_errorSumBounded env, fun ops => ?_⟩
  exact run_errorSumBounded env ops initialState hinit

/-- An instance of C7 where the clamp is active: prior `errorSum = 100`, the
tick adds `20 * 0.01`, and the stored value is 100. -/
theorem errorSum_bounded_invariant_witness :
    errorSumBounded { tunedStateWithNextError 20 with errorSum := 100 }
      ∧ errorSumBounded
          (step sampleEnv { tunedStateWithNextError 20 with errorSum := 100 }
            (.tick (levelTickAt 10)))
      ∧ (step sampleEnv { tunedStateWithNextError 20 with errorSum := 100 }
            (.tick (levelTickAt 10))).errorSum = 100 := by
  have hb : errorSumBounded { tunedStateWithNextError 20 with errorSum := 100 } := by
    norm_num [errorSumBounded]
  refine ⟨hb, (errorSum_bounded_invariant sampleEnv).2.1 _ _ hb, ?_⟩
  have hread : tickReadsSensor { tunedStateWithNextError 20 with errorSum := 100 }
      (levelTickAt 10) := tunedStateWithNextError_reads 20 10 (by norm_num) (by norm_num)
  have herr : tickError sampleEnv { tunedStateWithNextError 20 with errorSum := 100 }
      (levelTickAt 10) = 20 := tunedStateWithNextError_error 20 10
  have hin : ¬ (absFloat (tickError sampleEnv { tunedStateWithNextError 20 with errorSum := 100 }
      (levelTickAt 10)) > EMERGENCY_ANGLE) := by
    rw [herr]; norm_num [absFloat, EMERGENCY_ANGLE]
  have hdz : ¬ (absFloat (tickError sampleEnv { tunedStateWithNextError 20 with errorSum := 100 }
      (levelTickAt 10))
      < ({ tunedStateWithNextError 20 with errorSum := 100 } : DriverState).deadzone) := by
    rw [herr]; norm_num [absFloat, tunedStateWithNextError]
  have hdt : tickDt { tunedStateWithNextError 20 with errorSum := 100 } (levelTickAt 10)
      = 1 / 100 := by
    norm_num [tickDt, elapsedMs, tunedStateWithNextError, stateWithNextError, calibratedState,
      initialState, levelTickAt]
  show (runBalanceLoop sampleEnv _ _).errorSum = 100
  rw [runBalanceLoop_pid sampleEnv _ _ hread hin hdz]
  show tickErrorSum sampleEnv _ _ = 100
  rw [tickErrorSum, herr, hdt]
  norm_num [constrainFloat]

/-! ### Sensor failures -/

/-- C8 (behaviour of the code): an incomplete burst read issues no motor
command.  On the calibrated driver the trace of commands is unchanged by such
a tick; and when the wheels are running at full duty (tuned dead-zone, error
20 on the previous tick), they are still running at full duty after it. -/
theorem short_read_issues_no_motor_command :
    (runBalanceLoop sampleEnv calibratedState (failedReadTickAt 10)).motorLog
        = calibratedState.motorLog
      ∧ (runBalanceLoop sampleEnv (tunedStateWithNextError 20) (levelTickAt 10)).pins
        = { IN1 := true, IN2 := false, IN3 := true, IN4 := false, ENA := 255, ENB := 255 }
      ∧ (runBalanceLoop sampleEnv
          (runBalanceLoop sampleEnv (tunedStateWithNextError 20) (levelTickAt 10))
          (failedReadTickAt 20)).pins
        = { IN1 := true, IN2 := false, IN3 := true, IN4 := false, ENA := 255, ENB := 255 }
      ∧ (runBalanceLoop sampleEnv
          (runBalanceLoop sampleEnv (tunedStateWithNextError 20) (levelTickAt 10))
          (failedReadTickAt 20)).motorLog = [(255, 255)] := by
  refine ⟨?_, ?_, ?_, ?_⟩
  · rw [runBalanceLoop_short_read sampleEnv calibratedState (failedReadTickAt 10) rfl
      (by decide) (by decide)]
  · rw [tuned_tick_drives_motors]
  · rw [tuned_tick_drives_motors, runBalanceLoop_short_read sampleEnv _ (failedReadTickAt 20) rfl
      (by decide) (by decide)]
  · rw [tuned_tick_drives_motors, runBalanceLoop_short_read sampleEnv _ (failedReadTickAt 20) rfl
      (by decide) (by decide)]

/-- C9: when the burst read in `runBalanceLoop` returns fewer than the 14
required bytes, the tick performs no partial update: `filteredAngle`,
`gyroAngleRate`, `errorSum`, `lastError` and `motorsEnabled` are exactly what
they were before the tick. -/
theorem short_read_no_partial_update (env : Env) (s : DriverState) (inp : TickInput)
    (hinit : s.mpuInitialized = true)
    (hrate : BALANCE_LOOP_TIME_MS ≤ elapsedMs s inp)
    (hshort : inp.available < BURST_LEN) :
    (runBalanceLoop env s inp).filteredAngle = s.filteredAngle
      ∧ (runBalanceLoop env s inp).gyroAngleRate = s.gyroAngleRate
      ∧ (runBalanceLoop env s inp).errorSum = s.errorSum
      ∧ (runBalanceLoop env s inp).lastError = s.lastError
      ∧ (runBalanceLoop env s inp).motorsEnabled = s.motorsEnabled := by
  rw [runBalanceLoop_short_read env s inp hinit hrate hshort]
  exact ⟨rfl, rfl, rfl, rfl, rfl⟩

/-- An instance of C9: the calibrated driver, 10 ms after start, the bus
delivers no byte. -/
theorem short_read_no_partial_update_witness :
    calibratedState.mpuInitialized = true
      ∧ BALANCE_LOOP_TIME_MS ≤ elapsedMs calibratedState (failedReadTickAt 10)
      ∧ (failedReadTickAt 10).available < BURST_LEN
      ∧ (runBalanceLoop sampleEnv calibratedState (failedReadTickAt 10)).filteredAngle
          = calibratedState.filteredAngle
      ∧ (runBalanceLoop sampleEnv calibratedState (failedReadTickAt 10)).motorsEnabled
          = calibratedState.motorsEnabled :=
  have h := short_read_no_partial_update sampleEnv calibratedState (failedReadTickAt 10) rfl
    (by decide) (by decide)
  ⟨rfl, by decide, by decide, h.1, h.2.2.2.2⟩

/-- C10: when the sensor is not initialized, every call of `runBalanceLoop`
commands zero on both wheels and does nothing else: the state afterwards is the
old one with all pins low and the command `(0, 0)` added to the trace, so
`motorsEnabled`, `filteredAngle`, `gyroAngleRate`, `errorSum`, `lastError` and
`lastBalanceTime` are unchanged (neither filter nor PID nor mixer runs). -/
theorem uninitialized_tick_only_stops_motors (env : Env) (s : DriverState) (inp : TickInput)
    (hinit : s.mpuInitialized = false) :
    runBalanceLoop env s inp = { s with pins := pinsAllLow, motorLog := (0, 0) :: s.motorLog }
      ∧ (runBalanceLoop env s inp).pins = pinsAllLow
      ∧ (runBalanceLoop env s inp).motorsEnabled = s.motorsEnabled
      ∧ (runBalanceLoop env s inp).filteredAngle = s.filteredAngle
      ∧ (runBalanceLoop env s inp).gyroAngleRate = s.gyroAngleRate
      ∧ (runBalanceLoop env s inp).errorSum = s.errorSum
      ∧ (runBalanceLoop env s inp).lastError = s.lastError
      ∧ (runBalanceLoop env s inp).lastBalanceTime = s.lastBalanceTime := by
  rw [runBalanceLoop_not_initialized env s inp hinit, setMotorSpeed_zero]
  exact ⟨rfl, rfl, rfl, rfl, rfl, rfl, rfl, rfl⟩

/-- An instance of C10: the driver as the globals are defined (sensor never
found), with a complete burst offered at clock value 10. -/
theorem uninitialized_tick_only_stops_motors_witness :
    initialState.mpuInitialized = false
      ∧ runBalanceLoop sampleEnv initialState (levelTickAt 10)
          = { initialState with pins := pinsAllLow, motorLog := [(0, 0)] } :=
  ⟨rfl, (uninitialized_tick_only_stops_motors sampleEnv initialState (levelTickAt 10) rfl).1⟩

/-! ### PID regulator and mixer -/

/-- C11 as stated fails at its own instance: with `errorSum = 0`,
`lastError = 50`, `dt = 0.01` and dead-zone 50, a tick that computes the error
60 is outside the dead-zone but also outside the emergency envelope (60 > 30);
it takes the emergency path, so afterwards `errorSum` is 0 (not 0.6),
`lastError` is 50 (not 60), and the command issued is `(0, 0)`. -/
theorem pid_instance_error_60_takes_emergency_path :
    tickReadsSensor { stateWithNextError 60 with lastError := 50 } (levelTickAt 10)
      ∧ tickError sampleEnv { stateWithNextError 60 with lastError := 50 } (levelTickAt 10) = 60
      ∧ tickDt { stateWithNextError 60 with lastError := 50 } (levelTickAt 10) = 1 / 100
      ∧ ¬ (absFloat (tickError sampleEnv { stateWithNextError 60 with lastError := 50 }
            (levelTickAt 10))
          < ({ stateWithNextError 60 with lastError := 50 } : DriverState).deadzone)
      ∧ (runBalanceLoop sampleEnv { stateWithNextError 60 with lastError := 50 }
          (levelTickAt 10)).errorSum ≠ 6 / 10
      ∧ (runBalanceLoop sampleEnv { stateWithNextError 60 with lastError := 50 }
          (levelTickAt 10)).lastError ≠ 60
      ∧ (runBalanceLoop sampleEnv { stateWithNextError 60 with lastError := 50 }
          (levelTickAt 10)).motorLog = [(0, 0)] := by
  have hread : tickReadsSensor { stateWithNextError 60 with lastError := 50 } (levelTickAt 10) :=
    stateWithNextError_reads 60 10 (by norm_num) (by norm_num)
  have herr : tickError sampleEnv { stateWithNextError 60 with lastError := 50 } (levelTickAt 10)
      = 60 := stateWithNextError_error 60 10
  have hem : absFloat (tickError sampleEnv { stateWithNextError 60 with lastError := 50 }
      (levelTickAt 10)) > EMERGENCY_ANGLE := by
    rw [herr]; norm_num [absFloat, EMERGENCY_ANGLE]
  refine ⟨hread, herr, ?_, ?_, ?_, ?_, ?_⟩
  · norm_num [tickDt, elapsedMs, stateWithNextError, calibratedState, initialState, levelTickAt]
  · rw [herr]; norm_num [absFloat, stateWithNextError, calibratedState, initialState]
  · rw [runBalanceLoop_emergency sampleEnv _ _ hread hem]
    norm_num [stateWithNextError, calibratedState, initialState]
  · rw [runBalanceLoop_emergency sampleEnv _ _ hread hem]
    norm_num
  · rw [runBalanceLoop_emergency sampleEnv _ _ hread hem]
    rfl

/-- C11 (amended): on a tick of `runBalanceLoop` that reads the sensor and whose
error is outside the dead-zone and inside the emergency envelope
(`|error| ≤ 30`), with prior `errorSum = s` and `lastError = e0`: the stored
`errorSum` becomes `clamp(s + error·dt, −100, 100)`, `lastError` becomes
`error`, and the wheel targets handed to the actuation are the integer parts of
`Kp·error + Ki·(that clamped errorSum) + Kd·(error − e0)/dt` plus and minus the
motion biases (the clamped value is both stored and used). -/
theorem pid_tick_update (env : Env) (s : DriverState) (inp : TickInput)
    (hread : tickReadsSensor s inp)
    (hin : absFloat (tickError env s inp) ≤ EMERGENCY_ANGLE)
    (hout : ¬ (absFloat (tickError env s inp) < s.deadzone)) :
    (runBalanceLoop env s inp).errorSum
        = max (-100) (min (s.errorSum + tickError env s inp * tickDt s inp) 100)
      ∧ (runBalanceLoop env s inp).lastError = tickError env s inp
      ∧ (runBalanceLoop env s inp).motorLog =
          (wheelSpeed (floatToInt
              (s.Kp * tickError env s inp
                + s.Ki * max (-100) (min (s.errorSum + tickError env s inp * tickDt s inp) 100)
                + s.Kd * ((tickError env s inp - s.lastError) / tickDt s inp)
                + (s.webMoveX : ℚ) / 100 * 255 + (s.webMoveY : ℚ) / 100 * 255)),
            wheelSpeed (floatToInt
              (s.Kp * tickError env s inp
                + s.Ki * max (-100) (min (s.errorSum + tickError env s inp * tickDt s inp) 100)
                + s.Kd * ((tickError env s inp - s.lastError) / tickDt s inp)
                + (s.webMoveX : ℚ) / 100 * 255 - (s.webMoveY : ℚ) / 100 * 255)))
            :: s.motorLog := by
  have hclamp := constrainFloat_eq_max_min
    (s.errorSum + tickError env s inp * tickDt s inp) (-100) 100 (by norm_num)
  rw [runBalanceLoop_pid env s inp hread (not_lt.mpr hin) hout, setMotorSpeed_motorLog _ _ _ rfl]
  refine ⟨hclamp, rfl, ?_⟩
  simp only [tickMotorSpeedLeft, tickMotorSpeedRight, tickOutput, tickDError, tickErrorSum,
    movementBias, rotationBias, hclamp, MAX_MOTOR_SPEED]
  norm_num

/-- An instance of the amended C11: error 20 with dead-zone 5, `dt = 0.01`,
`lastError = 10`, `errorSum = 0`, gains 3 / 0.005 / 0.3: the integral becomes
0.2, `lastError` becomes 20, and the output `3·20 + 0.005·0.2 + 0.3·1000`
(which is 360.001) saturates both wheels at 255. -/
theorem pid_tick_update_witness :
    tickReadsSensor { tunedStateWithNextError 20 with lastError := 10 } (levelTickAt 10)
      ∧ absFloat (tickError sampleEnv { tunedStateWithNextError 20 with lastError := 10 }
          (levelTickAt 10)) ≤ EMERGENCY_ANGLE
      ∧ ¬ (absFloat (tickError sampleEnv { tunedStateWithNextError 20 with lastError := 10 }
            (levelTickAt 10))
          < ({ tunedStateWithNextError 20 with lastError := 10 } : DriverState).deadzone)
      ∧ (runBalanceLoop sampleEnv { tunedStateWithNextError 20 with lastError := 10 }
          (levelTickAt 10)).errorSum = 2 / 10
      ∧ (runBalanceLoop sampleEnv { tunedStateWithNextError 20 with lastError := 10 }
          (levelTickAt 10)).lastError = 20
      ∧ (runBalanceLoop sampleEnv { tunedStateWithNextError 20 with lastError := 10 }
          (levelTickAt 10)).motorLog = [(255, 255)] := by
  have hread : tickReadsSensor { tunedStateWithNextError 20 with lastError := 10 }
      (levelTickAt 10) := tunedStateWithNextError_reads 20 10 (by norm_num) (by norm_num)
  have herr := lastError_of_next_error 20 10 10
  have hdt : tickDt { tunedStateWithNextError 20 with lastError := 10 } (levelTickAt 10)
      = 1 / 100 := by
    norm_num [tickDt, elapsedMs, tunedStateWithNextError, stateWithNextError, calibratedState,
      initialState, levelTickAt]
  have hin : absFloat (tickError sampleEnv { tunedStateWithNextError 20 with lastError := 10 }
      (levelTickAt 10)) ≤ EMERGENCY_ANGLE := by
    rw [herr]; norm_num [absFloat, EMERGENCY_ANGLE]
  have hout : ¬ (absFloat (tickError sampleEnv { tunedStateWithNextError 20 with lastError := 10 }
      (levelTickAt 10))
      < ({ tunedStateWithNextError 20 with lastError := 10 } : DriverState).deadzone) := by
    rw [herr]; norm_num [absFloat, tunedStateWithNextError]
  obtain ⟨h1, h2, h3⟩ := pid_tick_update sampleEnv
    { tunedStateWithNextError 20 with lastError := 10 } (levelTickAt 10) hread hin hout
  refine ⟨hread, hin, hout, ?_, h2.trans herr, ?_⟩
  · rw [h1, herr, hdt]
    norm_num [tunedStateWithNextError, stateWithNextError, calibratedState, initialState]
  · rw [h3, herr, hdt]
    norm_num [tunedStateWithNextError, stateWithNextError, calibratedState, initialState,
      floatToInt]
    decide

/-! ### Complementary filter after calibration -/

/-- C12 as stated fails for a negative accel-reference value: the driver is
calibrated with the sensor upside down, the next burst repeats the calibration
means on accel X and gyro Y with accel Z at -16384, and the filter stores
`0.02 · 180 = 3.6` degrees, because `atan2(0, z)` is 180 degrees for `z < 0`. -/
theorem filter_nonzero_for_negative_reference_axis :
    (calibratedWith invertedReads).filteredAngle = 0
      ∧ (calibratedWith invertedReads).targetAngle = 0
      ∧ (offsetTick (calibratedWith invertedReads) (-16384) 10).sample.ax
          = (calibratedWith invertedReads).accelXOffset
      ∧ (offsetTick (calibratedWith invertedReads) (-16384) 10).sample.gy
          = (calibratedWith invertedReads).gyroYOffset
      ∧ tickReadsSensor (calibratedWith invertedReads)
          (offsetTick (calibratedWith invertedReads) (-16384) 10)
      ∧ (runBalanceLoop sampleEnv (calibratedWith invertedReads)
          (offsetTick (calibratedWith invertedReads) (-16384) 10)).filteredAngle = 18 / 5
      ∧ (runBalanceLoop sampleEnv (calibratedWith invertedReads)
          (offsetTick (calibratedWith invertedReads) (-16384) 10)).filteredAngle ≠ 0 := by
  have hread := offsetTick_reads invertedReads (-16384)
  have hval : (runBalanceLoop sampleEnv (calibratedWith invertedReads)
      (offsetTick (calibratedWith invertedReads) (-16384) 10)).filteredAngle = 18 / 5 := by
    rw [(runBalanceLoop_filter_state sampleEnv _ _ hread).1]
    simp only [tickFilteredAngle, tickGyroRate, rawGyroY, rawAccelX, rawAccelZ, offsetTick,
      sub_self, toInt16_zero, (calibratedWith_fields invertedReads).1, sampleEnv,
      atan2DegOnAxes]
    norm_num [toInt16]
  refine ⟨(calibratedWith_fields _).1, (calibratedWith_fields _).2.1, rfl, rfl, hread, hval, ?_⟩
  rw [hval]; norm_num

/-- C12 (amended): with `filteredAngle = 0` (as immediately after calibration),
for every raw sample whose accel-axis word equals `accelXOffset` and whose
gyro-axis word equals `gyroYOffset`, with any non-negative accel-reference
value and any `dt`, the filter update of a tick that reads the sensor yields
`filteredAngle = 0` and `gyroAngleRate = 0`; `atan2(0, z) = 0` for `z ≥ 0` is
the only fact used about the arctangent. -/
theorem filter_zero_after_calibration (env : Env) (s : DriverState) (inp : TickInput)
    (hatan : ∀ z : Int, 0 ≤ z → env.atan2Deg 0 z = 0)
    (hf : s.filteredAngle = 0)
    (hax : inp.sample.ax = s.accelXOffset)
    (hgy : inp.sample.gy = s.gyroYOffset)
    (hz : 0 ≤ rawAccelZ inp)
    (hread : tickReadsSensor s inp) :
    tickFilteredAngle env s inp = 0
      ∧ tickGyroRate s inp = 0
      ∧ (runBalanceLoop env s inp).filteredAngle = 0
      ∧ (runBalanceLoop env s inp).gyroAngleRate = 0 := by
  have hg : tickGyroRate s inp = 0 := by
    simp [tickGyroRate, rawGyroY, hgy, toInt16_zero]
  have hfa : tickFilteredAngle env s inp = 0 := by
    simp [tickFilteredAngle, hg, hf, rawAccelX, hax, toInt16_zero, hatan _ hz]
  obtain ⟨h1, h2⟩ := runBalanceLoop_filter_state env s inp hread
  exact ⟨hfa, hg, h1.trans hfa, h2.trans hg⟩

/-- An instance of the amended C12: calibration with the sensor upright, then
a burst that repeats the calibration means with accel Z at 16000. -/
theorem filter_zero_after_calibration_witness :
    (∀ z : Int, 0 ≤ z → sampleEnv.atan2Deg 0 z = 0)
      ∧ (calibratedWith uprightReads).filteredAngle = 0
      ∧ 0 ≤ rawAccelZ (offsetTick (calibratedWith uprightReads) 16000 10)
      ∧ tickReadsSensor (calibratedWith uprightReads)
          (offsetTick (calibratedWith uprightReads) 16000 10)
      ∧ (runBalanceLoop sampleEnv (calibratedWith uprightReads)
          (offsetTick (calibratedWith uprightReads) 16000 10)).filteredAngle = 0
      ∧ (runBalanceLoop sampleEnv (calibratedWith uprightReads)
          (offsetTick (calibratedWith uprightReads) 16000 10)).gyroAngleRate = 0 := by
  have hatan : ∀ z : Int, 0 ≤ z → sampleEnv.atan2Deg 0 z = 0 := by
    intro z hz
    simp [sampleEnv, atan2DegOnAxes, not_lt.mpr hz]
  have hz : 0 ≤ rawAccelZ (offsetTick (calibratedWith uprightReads) 16000 10) := by
    simp only [rawAccelZ, offsetTick]; decide
  have h := filter_zero_after_calibration sampleEnv (calibratedWith uprightReads)
    (offsetTick (calibratedWith uprightReads) 16000 10) hatan (calibratedWith_fields _).1
    rfl rfl hz (offsetTick_reads uprightReads 16000)
  exact ⟨hatan, (calibratedWith_fields _).1, hz, offsetTick_reads uprightReads 16000,
    h.2.2.1, h.2.2.2⟩

/-! ### External setters and telemetry -/

/-- C13: for every pair of integers `(moveX, moveY)`, `setRobotMovement` stores
`webMoveX = clamp(moveX, −100, 100)` and `webMoveY = clamp(moveY, −100, 100)`
and modifies no other state; in-range inputs are stored unchanged; and the
stored motion command is within `[−100, 100]` on both axes after every sequence
of operations from the initial state. -/
theorem setRobotMovement_clamps_and_stores (env : Env) (s : DriverState) (moveX moveY : Int) :
    setRobotMovement s moveX moveY
        = { s with webMoveX := max (-100) (min moveX 100), webMoveY := max (-100) (min moveY 100) }
      ∧ (-100 ≤ moveX → moveX ≤ 100 → (setRobotMovement s moveX moveY).webMoveX = moveX)
      ∧ (-100 ≤ moveY → moveY ≤ 100 → (setRobotMovement s moveX moveY).webMoveY = moveY)
      ∧ (∀ ops : List Op, motionCommandBounded (run env initialState ops)) := by
  refine ⟨?_, ?_, ?_, ?_⟩
  · simp only [setRobotMovement, constrainInt_eq_max_min _ (-100) 100 (by decide)]
  · intro h1 h2
    simp only [setRobotMovement, constrainInt]
    split_ifs <;> omega
  · intro h1 h2
    simp only [setRobotMovement, constrainInt]
    split_ifs <;> omega
  · intro ops
    exact run_motionCommandBounded env ops initialState
      (by simp [motionCommandBounded, initialState])

/-- An instance of C13: the command `(250, -40)` is stored as `(100, -40)`. -/
theorem setRobotMovement_clamps_and_stores_witness :
    setRobotMovement calibratedState 250 (-40)
        = { calibratedState with webMoveX := 100, webMoveY := -40 }
      ∧ (-100 : Int) ≤ -40 ∧ (-40 : Int) ≤ 100
      ∧ (setRobotMovement calibratedState 250 (-40)).webMoveY = -40 :=
  have h := setRobotMovement_clamps_and_stores sampleEnv calibratedState 250 (-40)
  ⟨h.1, by decide, by decide, h.2.2.1 (by decide) (by decide)⟩

/-- C14: `toggleMotors(false)` sets `motorsEnabled` to false and immediately
actuates zero magnitude on both wheels with all direction lines inactive,
whatever the motors were doing before; `toggleMotors(true)` sets
`motorsEnabled` to true and issues no motor command (pins and command trace
are untouched). -/
theorem toggleMotors_effect (s : DriverState) :
    toggleMotors s false
        = { s with motorsEnabled := false, pins := pinsAllLow, motorLog := (0, 0) :: s.motorLog }
      ∧ toggleMotors s true = { s with motorsEnabled := true }
      ∧ (toggleMotors s true).pins = s.pins
      ∧ (toggleMotors s true).motorLog = s.motorLog := by
  refine ⟨?_, rfl, rfl, rfl⟩
  simp [toggleMotors, setMotorSpeed_zero]

/-- C15: round trip of the gains: after `updatePidValues(a, b, c)` the status
query reports `Kp = a`, `Ki = b`, `Kd = c` exactly, and `updatePidValues`
changes no state other than the three gains. -/
theorem gains_round_trip (s : DriverState) (a b c : ℚ) :
    (getCurrentRobotStatus (updatePidValues s a b c)).2.currentKp = a
      ∧ (getCurrentRobotStatus (updatePidValues s a b c)).2.currentKi = b
      ∧ (getCurrentRobotStatus (updatePidValues s a b c)).2.currentKd = c
      ∧ updatePidValues s a b c = { s with Kp := a, Ki := b, Kd := c } :=
  ⟨rfl, rfl, rfl, rfl⟩

/-- C16: `getCurrentRobotStatus` is a read-only snapshot: it leaves the state as
it was, so a second call with nothing in between returns the same values; the
snapshot reports `angle = filteredAngle`, `error = filteredAngle − targetAngle`,
`gyroRate = gyroAngleRate` and `enabled = motorsEnabled`. -/
theorem status_is_read_only_snapshot (s : DriverState) :
    (getCurrentRobotStatus s).1 = s
      ∧ (getCurrentRobotStatus (getCurrentRobotStatus s).1).2 = (getCurrentRobotStatus s).2
      ∧ (getCurrentRobotStatus s).2.angle = s.filteredAngle
      ∧ (getCurrentRobotStatus s).2.error = s.filteredAngle - s.targetAngle
      ∧ (getCurrentRobotStatus s).2.gyroRate = s.gyroAngleRate
      ∧ (getCurrentRobotStatus s).2.enabled = s.motorsEnabled :=
  ⟨rfl, rfl, rfl, rfl, rfl, rfl⟩

/-! ### Per-wheel mapping against the reference -/

/-- C17: with motors enabled, the per-wheel actuation mapping of
`setMotorSpeed` equals the reference for every integer speed `s` on both
wheels: 0 if `|s| < 10`, otherwise `sign(s)·min(max(|s|, 80), 255)`; the duty
written is the magnitude of the reference value.  In particular every `s` with
`10 ≤ |s| < 80` is raised to magnitude 80, every `|s| > 255` is capped at 255,
every `80 ≤ |s| ≤ 255` passes unchanged, and the sign is preserved. -/
theorem wheel_mapping_matches_reference (st : DriverState) (speedLeft speedRight : Int)
    (hon : st.motorsEnabled = true) :
    (setMotorSpeed st speedLeft speedRight).motorLog
        = (wheelSpeedReference speedLeft, wheelSpeedReference speedRight) :: st.motorLog
      ∧ (setMotorSpeed st speedLeft speedRight).pins.ENA = |wheelSpeedReference speedLeft|
      ∧ (setMotorSpeed st speedLeft speedRight).pins.ENB = |wheelSpeedReference speedRight|
      ∧ (∀ x : Int, 10 ≤ |x| → |x| < 80 → |wheelSpeed x| = 80)
      ∧ (∀ x : Int, 255 < |x| → |wheelSpeed x| = 255)
      ∧ (∀ x : Int, 80 ≤ |x| → |x| ≤ 255 → wheelSpeed x = x)
      ∧ (∀ x : Int, 10 ≤ |x| → Int.sign (wheelSpeed x) = Int.sign x)
      ∧ (∀ x : Int, |x| < 10 → wheelSpeed x = 0) := by
  obtain ⟨hlog, hena, henb⟩ := setMotorSpeed_enabled_outputs st speedLeft speedRight hon
  rw [wheelSpeed_eq_reference speedLeft, wheelSpeed_eq_reference speedRight] at hlog
  rw [wheelSpeed_eq_reference speedLeft] at hena
  rw [wheelSpeed_eq_reference speedRight] at henb
  exact ⟨hlog, hena, henb, wheelSpeed_raised, wheelSpeed_capped, wheelSpeed_passed,
    wheelSpeed_sign, wheelSpeed_snapped⟩

/-- An instance of C17: the targets 45 and -300 are actuated as 80 and -255;
and the most negative `int` is actuated as -255. -/
theorem wheel_mapping_matches_reference_witness :
    calibratedState.motorsEnabled = true
      ∧ wheelSpeedReference 45 = 80 ∧ wheelSpeedReference (-300) = -255
      ∧ (setMotorSpeed calibratedState 45 (-300)).motorLog
          = (wheelSpeedReference 45, wheelSpeedReference (-300)) :: calibratedState.motorLog
      ∧ wheelSpeedReference (-2147483648) = -255
      ∧ (setMotorSpeed calibratedState (-2147483648) 0).motorLog
          = (wheelSpeedReference (-2147483648), wheelSpeedReference 0)
              :: calibratedState.motorLog :=
  ⟨rfl, by decide, by decide,
    (wheel_mapping_matches_reference calibratedState 45 (-300) rfl).1,
    by decide,
    (wheel_mapping_matches_reference calibratedState (-2147483648) 0 rfl).1⟩

/-! ### Motion mixer -/

/-- C18: on a tick that reaches the mixer, the targets handed to
`setMotorSpeed` are `output + movementBias + rotationBias` for the left wheel
and `output + movementBias − rotationBias` for the right wheel, each cast to
`int`, with `movementBias = webMoveX/100·255` and
`rotationBias = webMoveY/100·255`; with `webMoveY = 0` the two targets are
equal. -/
theorem mixer_targets (env : Env) (s : DriverState) (inp : TickInput)
    (hread : tickReadsSensor s inp)
    (hin : absFloat (tickError env s inp) ≤ EMERGENCY_ANGLE)
    (hout : ¬ (absFloat (tickError env s inp) < s.deadzone)) :
    runBalanceLoop env s inp =
        setMotorSpeed
          { s with
            lastBalanceTime := inp.now % 2 ^ 32
            gyroAngleRate := tickGyroRate s inp
            filteredAngle := tickFilteredAngle env s inp
            motorsEnabled := true
            errorSum := tickErrorSum env s inp
            lastError := tickError env s inp }
          (floatToInt (tickOutput env s inp
            + (s.webMoveX : ℚ) / 100 * 255 + (s.webMoveY : ℚ) / 100 * 255))
          (floatToInt (tickOutput env s inp
            + (s.webMoveX : ℚ) / 100 * 255 - (s.webMoveY : ℚ) / 100 * 255))
      ∧ (s.webMoveY = 0 →
          floatToInt (tickOutput env s inp
            + (s.webMoveX : ℚ) / 100 * 255 + (s.webMoveY : ℚ) / 100 * 255)
          = floatToInt (tickOutput env s inp
            + (s.webMoveX : ℚ) / 100 * 255 - (s.webMoveY : ℚ) / 100 * 255)) := by
  constructor
  · rw [runBalanceLoop_pid env s inp hread (not_lt.mpr hin) hout]
    simp only [tickMotorSpeedLeft, tickMotorSpeedRight, movementBias, rotationBias,
      MAX_MOTOR_SPEED]
    norm_num
  · intro hy
    rw [hy]
    norm_num

/-- An instance of C18: error 20, gains 3 / 0.005 / 0.3, previous error 0,
`dt = 0.01` (output 660.001), forward command 50 (bias 127.5) and turn command
20 (bias 51): the targets are 838 and 736. -/
theorem mixer_targets_witness :
    tickReadsSensor steeringState (levelTickAt 10)
      ∧ absFloat (tickError sampleEnv steeringState (levelTickAt 10)) ≤ EMERGENCY_ANGLE
      ∧ ¬ (absFloat (tickError sampleEnv steeringState (levelTickAt 10)) < steeringState.deadzone)
      ∧ tickOutput sampleEnv steeringState (levelTickAt 10) = 660001 / 1000
      ∧ floatToInt (tickOutput sampleEnv steeringState (levelTickAt 10)
            + (steeringState.webMoveX : ℚ) / 100 * 255
            + (steeringState.webMoveY : ℚ) / 100 * 255) = 838
      ∧ floatToInt (tickOutput sampleEnv steeringState (levelTickAt 10)
            + (steeringState.webMoveX : ℚ) / 100 * 255
            - (steeringState.webMoveY : ℚ) / 100 * 255) = 736
      ∧ runBalanceLoop sampleEnv steeringState (levelTickAt 10) =
          setMotorSpeed
            { steeringState with
              lastBalanceTime := (levelTickAt 10).now % 2 ^ 32
              gyroAngleRate := tickGyroRate steeringState (levelTickAt 10)
              filteredAngle := tickFilteredAngle sampleEnv steeringState (levelTickAt 10)
              motorsEnabled := true
              errorSum := tickErrorSum sampleEnv steeringState (levelTickAt 10)
              lastError := tickError sampleEnv steeringState (levelTickAt 10) }
            (floatToInt (tickOutput sampleEnv steeringState (levelTickAt 10)
              + (steeringState.webMoveX : ℚ) / 100 * 255
              + (steeringState.webMoveY : ℚ) / 100 * 255))
            (floatToInt (tickOutput sampleEnv steeringState (levelTickAt 10)
              + (steeringState.webMoveX : ℚ) / 100 * 255
              - (steeringState.webMoveY : ℚ) / 100 * 255)) := by
  have hread : tickReadsSensor steeringState (levelTickAt 10) :=
    tunedStateWithNextError_reads 20 10 (by norm_num) (by norm_num)
  have herr : tickError sampleEnv steeringState (levelTickAt 10) = 20 :=
    tunedStateWithNextError_error 20 10
  have hin : absFloat (tickError sampleEnv steeringState (levelTickAt 10)) ≤ EMERGENCY_ANGLE := by
    rw [herr]; norm_num [absFloat, EMERGENCY_ANGLE]
  have hout : ¬ (absFloat (tickError sampleEnv steeringState (levelTickAt 10))
      < steeringState.deadzone) := by
    rw [herr]; norm_num [absFloat, steeringState, tunedStateWithNextError]
  have hdt : tickDt steeringState (levelTickAt 10) = 1 / 100 := by
    norm_num [tickDt, elapsedMs, steeringState, tunedStateWithNextError, stateWithNextError,
      calibratedState, initialState, levelTickAt]
  have hO : tickOutput sampleEnv steeringState (levelTickAt 10) = 660001 / 1000 := by
    rw [tickOutput, tickDError, tickErrorSum, herr, hdt]
    norm_num [constrainFloat, steeringState, tunedStateWithNextError, stateWithNextError,
      calibratedState, initialState]
  refine ⟨hread, hin, hout, hO, ?_, ?_,
    (mixer_targets sampleEnv steeringState (levelTickAt 10) hread hin hout).1⟩
  · rw [hO]
    norm_num [steeringState, floatToInt]
    rfl
  · rw [hO]
    norm_num [steeringState, floatToInt]
    rfl

/-! ### Scheduler -/

/-- C19: rate limiter: when the sensor is initialized and fewer than
`BALANCE_LOOP_TIME_MS` (10 ms) have elapsed since `lastBalanceTime`,
`runBalanceLoop` is a no-op: the state after the call is the state before it
(no variable changes, `lastBalanceTime` included, and no motor command is
issued), whatever the bus would have delivered. -/
theorem rate_limited_tick_is_noop (env : Env) (s : DriverState) (inp : TickInput)
    (hinit : s.mpuInitialized = true)
    (hearly : elapsedMs s inp < BALANCE_LOOP_TIME_MS) :
    runBalanceLoop env s inp = s :=
  runBalanceLoop_rate_limited env s inp hinit hearly

/-- An instance of C19: last tick at clock value 1000, next call at 1009. -/
theorem rate_limited_tick_is_noop_witness :
    (calibratedStateAt 1000).mpuInitialized = true
      ∧ elapsedMs (calibratedStateAt 1000) (levelTickAt 1009) = 9
      ∧ elapsedMs (calibratedStateAt 1000) (levelTickAt 1009) < BALANCE_LOOP_TIME_MS
      ∧ runBalanceLoop sampleEnv (calibratedStateAt 1000) (levelTickAt 1009)
          = calibratedStateAt 1000 :=
  ⟨rfl, by decide, by decide,
    rate_limited_tick_is_noop sampleEnv (calibratedStateAt 1000) (levelTickAt 1009) rfl
      (by decide)⟩

/-- C21: in every state reachable from startup, `mpuInitialized = true` implies
that `calibrateMPU` has completed: `targetAngle = 0`, and the offsets are the
calibration means of the most recent calibration run of the operations
performed (sum of its 200 samples divided by 200 on each axis); hence a tick
that reads the sensor computes its error against the setpoint 0, never against
the pre-calibration setpoint -2150; and no tick changes `mpuInitialized`. -/
theorem never_initialized_without_calibration (env : Env) :
    (∀ ops : List Op, (run env initialState ops).mpuInitialized = true →
        (run env initialState ops).targetAngle = 0
          ∧ ∃ reads, lastCalibrationReads none ops = some reads
              ∧ (run env initialState ops).accelXOffset
                  = Int.tdiv (Finset.sum (Finset.range 200) (fun i => toInt16 (reads i).ax)) 200
              ∧ (run env initialState ops).gyroYOffset
                  = Int.tdiv (Finset.sum (Finset.range 200) (fun i => toInt16 (reads i).gy)) 200)
      ∧ (∀ (ops : List Op) (inp : TickInput),
          tickReadsSensor (run env initialState ops) inp →
            (run env initialState ops).targetAngle = 0
              ∧ (run env initialState ops).targetAngle ≠ -2150
              ∧ tickError env (run env initialState ops) inp
                  = tickFilteredAngle env (run env initialState ops) inp)
      ∧ (∀ (s : DriverState) (inp : TickInput),
          (runBalanceLoop env s inp).mpuInitialized = s.mpuInitialized) := by
  have hinv : ∀ ops : List Op,
      calibrationRecorded (run env initialState ops) (lastCalibrationReads none ops) :=
    fun ops => run_calibrationRecorded env ops initialState none
      initialState_calibrationRecorded
  have hmain : ∀ ops : List Op, (run env initialState ops).mpuInitialized = true →
      (run env initialState ops).targetAngle = 0
        ∧ ∃ reads, lastCalibrationReads none ops = some reads
            ∧ (run env initialState ops).accelXOffset
                = Int.tdiv (Finset.sum (Finset.range 200) (fun i => toInt16 (reads i).ax)) 200
            ∧ (run env initialState ops).gyroYOffset
                = Int.tdiv (Finset.sum (Finset.range 200) (fun i => toInt16 (reads i).gy)) 200 := by
    intro ops hinit
    obtain ⟨reads, hr⟩ := (hinv ops).1 hinit
    obtain ⟨ha, hx, hy⟩ := (hinv ops).2 reads hr
    exact ⟨ha, reads, hr, hx, hy⟩
  refine ⟨hmain, ?_, fun s inp => (runBalanceLoop_calibration_fields env s inp).1⟩
  intro ops inp hread
  have h0 := (hmain ops hread.1).1
  refine ⟨h0, ?_, ?_⟩
  · rw [h0]; norm_num
  · rw [tickError, h0, sub_zero]

/-- An instance of C21: start-up with the sensor answering on 0x68 and two
calibration runs over an upright robot (every sample 120 on accel X and -7 on
gyro Y), followed by a motion command and a tick: the sensor is flagged
initialized, the setpoint is 0, the recorded run is the second one of the
start-up, and the offsets are 120 and -7. -/
theorem never_initialized_without_calibration_witness :
    (run sampleEnv initialState
        [.setup 0 0 uprightReads uprightReads, .move 30 0, .tick (levelTickAt 10)]).mpuInitialized
        = true
      ∧ lastCalibrationReads none
          [.setup 0 0 uprightReads uprightReads, .move 30 0, .tick (levelTickAt 10)]
          = some uprightReads
      ∧ (run sampleEnv initialState
          [.setup 0 0 uprightReads uprightReads, .move 30 0, .tick (levelTickAt 10)]).targetAngle
          = 0
      ∧ (run sampleEnv initialState
          [.setup 0 0 uprightReads uprightReads, .move 30 0, .tick (levelTickAt 10)]).accelXOffset
          = 120
      ∧ (run sampleEnv initialState
          [.setup 0 0 uprightReads uprightReads, .move 30 0, .tick (levelTickAt 10)]).gyroYOffset
          = -7 := by
  have hlast : lastCalibrationReads none
      [.setup 0 0 uprightReads uprightReads, .move 30 0, .tick (levelTickAt 10)]
      = some uprightReads := by
    simp [lastCalibrationReads, noteCalibration]
  have hinit : (run sampleEnv initialState
      [.setup 0 0 uprightReads uprightReads, .move 30 0, .tick (levelTickAt 10)]).mpuInitialized
      = true := by
    obtain ⟨t, ht, e⟩ := setupBalancer_found initialState 0 0 uprightReads uprightReads
      (Or.inl rfl)
    simp only [run, step]
    rw [(runBalanceLoop_calibration_fields sampleEnv _ _).1, e]
    simp only [setRobotMovement, calibrateMPU]
    exact ht
  obtain ⟨htarget, reads, hr, hx, hy⟩ :=
    (never_initialized_without_calibration sampleEnv).1 _ hinit
  have e : uprightReads = reads := Option.some.inj (hlast.symm.trans hr)
  subst e
  have mx : Int.tdiv (Finset.sum (Finset.range 200) (fun i => toInt16 (uprightReads i).ax)) 200
      = 120 := by
    simp [uprightReads, toInt16]
    decide
  have mg : Int.tdiv (Finset.sum (Finset.range 200) (fun i => toInt16 (uprightReads i).gy)) 200
      = -7 := by
    simp [uprightReads, toInt16]
    decide
  exact ⟨hinit, hlast, htarget, hx.trans mx, hy.trans mg⟩

/-- C22: with the constants the code ships (`deadzone = 50`, which no
operation changes, and `EMERGENCY_ANGLE = 30`) the PID/mixer branch of
`runBalanceLoop` is unreachable: for every state with dead-zone 50 and every
tick, the error is never both inside the envelope and outside the dead-zone,
and the tick issues either no motor command or `(0, 0)`; so in every state
reachable from startup, whatever gains and motion commands were sent, the
dead-zone is 50, `errorSum` is 0, all pins are low and every command in the
trace is `(0, 0)`. -/
theorem pid_branch_unreachable_as_shipped (env : Env) :
    (∀ (s : DriverState) (op : Op), (step env s op).deadzone = s.deadzone)
      ∧ (∀ (s : DriverState) (inp : TickInput), s.deadzone = 50 →
          ¬ (tickInsideEnvelope env s inp ∧ ¬ (absFloat (tickError env s inp) < s.deadzone))
            ∧ ((runBalanceLoop env s inp).motorLog = s.motorLog
                ∨ (runBalanceLoop env s inp).motorLog = (0, 0) :: s.motorLog))
      ∧ (∀ ops : List Op,
          (run env initialState ops).deadzone = 50
            ∧ (run env initialState ops).errorSum = 0
            ∧ (run env initialState ops).pins = pinsAllLow
            ∧ ∀ c ∈ (run env initialState ops).motorLog, c = ((0, 0) : Int × Int)) := by
  refine ⟨step_deadzone env, ?_, ?_⟩
  · intro s inp hdz
    exact ⟨no_pid_with_shipped_deadzone env s inp hdz,
      runBalanceLoop_motorLog_shipped env s inp hdz⟩
  · intro ops
    exact run_shippedIdle env ops initialState initialState_shippedIdle

/-- An instance of C22: start-up, gains raised to 50/1/5, full forward
command, then a level tick: the tick is inside the dead-zone and all pins stay
low. -/
theorem pid_branch_unreachable_as_shipped_witness :
    calibratedState.deadzone = 50
      ∧ ((runBalanceLoop sampleEnv calibratedState (levelTickAt 10)).motorLog
            = calibratedState.motorLog
          ∨ (runBalanceLoop sampleEnv calibratedState (levelTickAt 10)).motorLog
            = (0, 0) :: calibratedState.motorLog)
      ∧ (run sampleEnv initialState
          [.setup 0 0 uprightReads uprightReads, .gains 50 1 5, .move 100 0,
            .tick (levelTickAt 10)]).pins = pinsAllLow :=
  ⟨rfl,
    ((pid_branch_unreachable_as_shipped sampleEnv).2.1 calibratedState (levelTickAt 10) rfl).2,
    ((pid_branch_unreachable_as_shipped sampleEnv).2.2 _).2.2.1⟩

/-! ### The enable flag and the emergency stop -/

/-- C23: the value of `motorsEnabled` before a tick has no influence on the
tick: for any two states that differ only in `motorsEnabled`, a tick that
passes the rate limiter and reads the sensor (same sample, same clock) yields
the same resulting state, hence the same pins, the same command trace and the
same resulting `motorsEnabled`. -/
theorem enable_flag_does_not_influence_tick (env : Env) (s : DriverState) (inp : TickInput)
    (b1 b2 : Bool) (hread : tickReadsSensor s inp) :
    runBalanceLoop env { s with motorsEnabled := b1 } inp
      = runBalanceLoop env { s with motorsEnabled := b2 } inp := by
  rw [runBalanceLoop_flag_irrelevant env s inp b1 hread,
    runBalanceLoop_flag_irrelevant env s inp b2 hread]

/-- An instance of C23: the tuned driver at error 20 drives both wheels at
full duty whether the flag was true or false before the tick. -/
theorem enable_flag_does_not_influence_tick_witness :
    tickReadsSensor (tunedStateWithNextError 20) (levelTickAt 10)
      ∧ runBalanceLoop sampleEnv { tunedStateWithNextError 20 with motorsEnabled := true }
            (levelTickAt 10)
          = runBalanceLoop sampleEnv { tunedStateWithNextError 20 with motorsEnabled := false }
            (levelTickAt 10) :=
  ⟨tunedStateWithNextError_reads 20 10 (by norm_num) (by norm_num),
    enable_flag_does_not_influence_tick sampleEnv (tunedStateWithNextError 20) (levelTickAt 10)
      true false (tunedStateWithNextError_reads 20 10 (by norm_num) (by norm_num))⟩

/-- C24 as stated fails: with `lastError = 25` left by an earlier tick, a tick
that computes the error 40 takes the emergency path and afterwards `lastError`
is still 25, not zero. -/
theorem emergency_path_keeps_last_error :
    tickReadsSensor { stateWithNextError 40 with lastError := 25 } (levelTickAt 10)
      ∧ absFloat (tickError sampleEnv { stateWithNextError 40 with lastError := 25 }
          (levelTickAt 10)) > EMERGENCY_ANGLE
      ∧ (runBalanceLoop sampleEnv { stateWithNextError 40 with lastError := 25 }
          (levelTickAt 10)).lastError = 25
      ∧ (runBalanceLoop sampleEnv { stateWithNextError 40 with lastError := 25 }
          (levelTickAt 10)).lastError ≠ 0 := by
  have hread : tickReadsSensor { stateWithNextError 40 with lastError := 25 } (levelTickAt 10) :=
    stateWithNextError_reads 40 10 (by norm_num) (by norm_num)
  have herr : tickError sampleEnv { stateWithNextError 40 with lastError := 25 } (levelTickAt 10)
      = 40 := stateWithNextError_error 40 10
  have hem : absFloat (tickError sampleEnv { stateWithNextError 40 with lastError := 25 }
      (levelTickAt 10)) > EMERGENCY_ANGLE := by
    rw [herr]; norm_num [absFloat, EMERGENCY_ANGLE]
  refine ⟨hread, hem, ?_, ?_⟩
  · rw [runBalanceLoop_emergency sampleEnv _ _ hread hem]
  · rw [runBalanceLoop_emergency sampleEnv _ _ hread hem]
    norm_num

/-- C24 (amended): the emergency path does not touch the PID state: after a
tick with `|error| > EMERGENCY_ANGLE`, `errorSum` and `lastError` are what they
were before.  The next tick that sees the angle inside the envelope resets
`errorSum` to 0 and sets `lastError` to its error when that error is inside the
dead-zone; otherwise it integrates from the old `errorSum` and differentiates
against the old `lastError`. -/
theorem emergency_tick_keeps_pid_state (env : Env) (s : DriverState) (inp inp2 : TickInput)
    (hread : tickReadsSensor s inp)
    (hem : absFloat (tickError env s inp) > EMERGENCY_ANGLE) :
    (runBalanceLoop env s inp).errorSum = s.errorSum
      ∧ (runBalanceLoop env s inp).lastError = s.lastError
      ∧ (tickInsideEnvelope env (runBalanceLoop env s inp) inp2 →
          absFloat (tickError env (runBalanceLoop env s inp) inp2) < s.deadzone →
            (runBalanceLoop env (runBalanceLoop env s inp) inp2).errorSum = 0
              ∧ (runBalanceLoop env (runBalanceLoop env s inp) inp2).lastError
                  = tickError env (runBalanceLoop env s inp) inp2)
      ∧ (tickInsideEnvelope env (runBalanceLoop env s inp) inp2 →
          ¬ (absFloat (tickError env (runBalanceLoop env s inp) inp2) < s.deadzone) →
            (runBalanceLoop env (runBalanceLoop env s inp) inp2).errorSum
                = constrainFloat
                    (s.errorSum + tickError env (runBalanceLoop env s inp) inp2
                      * tickDt (runBalanceLoop env s inp) inp2) (-100) 100
              ∧ tickDError env (runBalanceLoop env s inp) inp2
                  = (tickError env (runBalanceLoop env s inp) inp2 - s.lastError)
                      / tickDt (runBalanceLoop env s inp) inp2) := by
  have e := runBalanceLoop_emergency env s inp hread hem
  have hsum : (runBalanceLoop env s inp).errorSum = s.errorSum := by rw [e]
  have hlast : (runBalanceLoop env s inp).lastError = s.lastError := by rw [e]
  have hdzone : (runBalanceLoop env s inp).deadzone = s.deadzone := by rw [e]
  refine ⟨hsum, hlast, ?_, ?_⟩
  · intro hin hdz
    rw [runBalanceLoop_deadzone env _ inp2 hin.1 hin.2 (by rw [hdzone]; exact hdz)]
    exact ⟨rfl, rfl⟩
  · intro hin hdz
    rw [runBalanceLoop_pid env _ inp2 hin.1 hin.2 (by rw [hdzone]; exact hdz)]
    constructor
    · show tickErrorSum env _ inp2 = _
      rw [tickErrorSum, hsum]
    · rw [tickDError, hlast]

/-- An instance of the amended C24: error 40 with `lastError = 25`. -/
theorem emergency_tick_keeps_pid_state_witness :
    tickReadsSensor { stateWithNextError 40 with lastError := 25 } (levelTickAt 10)
      ∧ absFloat (tickError sampleEnv { stateWithNextError 40 with lastError := 25 }
          (levelTickAt 10)) > EMERGENCY_ANGLE
      ∧ (runBalanceLoop sampleEnv { stateWithNextError 40 with lastError := 25 }
          (levelTickAt 10)).errorSum = 0
      ∧ (runBalanceLoop sampleEnv { stateWithNextError 40 with lastError := 25 }
          (levelTickAt 10)).lastError = 25 := by
  have hread : tickReadsSensor { stateWithNextError 40 with lastError := 25 } (levelTickAt 10) :=
    stateWithNextError_reads 40 10 (by norm_num) (by norm_num)
  have hem : absFloat (tickError sampleEnv { stateWithNextError 40 with lastError := 25 }
      (levelTickAt 10)) > EMERGENCY_ANGLE := by
    rw [show tickError sampleEnv { stateWithNextError 40 with lastError := 25 } (levelTickAt 10)
      = 40 from stateWithNextError_error 40 10]
    norm_num [absFloat, EMERGENCY_ANGLE]
  have h := emergency_tick_keeps_pid_state sampleEnv
    { stateWithNextError 40 with lastError := 25 } (levelTickAt 10) (levelTickAt 20) hread hem
  exact ⟨hread, hem, h.1, h.2.1⟩

/-- C25: for every tick of `runBalanceLoop` that reads the sensor, whatever
`motorsEnabled` was before, `motorsEnabled` after the tick is true exactly when
`|filteredAngle − targetAngle| ≤ EMERGENCY_ANGLE` for the angle that tick
computed, and `getCurrentRobotStatus` then reports that value as `enabled`:
false after an emergency tick, true after a tick inside the envelope. -/
theorem enable_flag_follows_envelope (env : Env) (s : DriverState) (inp : TickInput)
    (hread : tickReadsSensor s inp) :
    ((runBalanceLoop env s inp).motorsEnabled = true ↔
        absFloat ((runBalanceLoop env s inp).filteredAngle
          - (runBalanceLoop env s inp).targetAngle) ≤ EMERGENCY_ANGLE)
      ∧ ((getCurrentRobotStatus (runBalanceLoop env s inp)).2.enabled = true ↔
        absFloat ((runBalanceLoop env s inp).filteredAngle
          - (runBalanceLoop env s inp).targetAngle) ≤ EMERGENCY_ANGLE)
      ∧ (absFloat (tickError env s inp) > EMERGENCY_ANGLE →
          (getCurrentRobotStatus (runBalanceLoop env s inp)).2.enabled = false)
      ∧ (absFloat (tickError env s inp) ≤ EMERGENCY_ANGLE →
          (getCurrentRobotStatus (runBalanceLoop env s inp)).2.enabled = true) := by
  have hflag := runBalanceLoop_flag_after env s inp hread
  have hiff : (runBalanceLoop env s inp).motorsEnabled = true ↔
      absFloat ((runBalanceLoop env s inp).filteredAngle
        - (runBalanceLoop env s inp).targetAngle) ≤ EMERGENCY_ANGLE := by
    rw [runBalanceLoop_error_after env s inp hread]
    constructor
    · intro hen
      by_contra hcon
      have := hflag.1 (not_le.mp hcon)
      rw [this] at hen
      exact absurd hen (by decide)
    · intro hle
      exact hflag.2 (not_lt.mpr hle)
  exact ⟨hiff, hiff, fun hem => hflag.1 hem, fun hle => hflag.2 (not_lt.mpr hle)⟩

/-- An instance of C25: a disabled driver (as after an emergency stop) whose
tick computes the error 20 reports `enabled = true`; a driver whose tick
computes the error 100 reports `enabled = false`. -/
theorem enable_flag_follows_envelope_witness :
    tickReadsSensor { stateWithNextError 20 with motorsEnabled := false } (levelTickAt 10)
      ∧ absFloat (tickError sampleEnv { stateWithNextError 20 with motorsEnabled := false }
          (levelTickAt 10)) ≤ EMERGENCY_ANGLE
      ∧ (getCurrentRobotStatus (runBalanceLoop sampleEnv
          { stateWithNextError 20 with motorsEnabled := false } (levelTickAt 10))).2.enabled = true
      ∧ absFloat (tickError sampleEnv (stateWithNextError 100) (levelTickAt 10)) > EMERGENCY_ANGLE
      ∧ (getCurrentRobotStatus (runBalanceLoop sampleEnv (stateWithNextError 100)
          (levelTickAt 10))).2.enabled = false := by
  have hread : tickReadsSensor { stateWithNextError 20 with motorsEnabled := false }
      (levelTickAt 10) := stateWithNextError_reads 20 10 (by norm_num) (by norm_num)
  have hin : absFloat (tickError sampleEnv { stateWithNextError 20 with motorsEnabled := false }
      (levelTickAt 10)) ≤ EMERGENCY_ANGLE := by
    rw [show tickError sampleEnv { stateWithNextError 20 with motorsEnabled := false }
      (levelTickAt 10) = 20 from stateWithNextError_error 20 10]
    norm_num [absFloat, EMERGENCY_ANGLE]
  have hread2 := stateWithNextError_reads 100 10 (by norm_num) (by norm_num)
  have hem : absFloat (tickError sampleEnv (stateWithNextError 100) (levelTickAt 10))
      > EMERGENCY_ANGLE := by
    rw [stateWithNextError_error 100 10]; norm_num [absFloat, EMERGENCY_ANGLE]
  exact ⟨hread, hin,
    (enable_flag_follows_envelope sampleEnv _ (levelTickAt 10) hread).2.2.2 hin, hem,
    (enable_flag_follows_envelope sampleEnv _ (levelTickAt 10) hread2).2.2.1 hem⟩

/-! ### Offsets -/

/-- C26 as stated fails when the difference leaves the `int16_t` range: with
`accelXOffset = -1` and the raw accel sample 32767 the difference is 32768, but
the value stored in `rawAccelX` and handed to the filter is -32768. -/
theorem offset_subtraction_wraps :
    ({ now := 10, available := 14, sample := { ax := 32767, az := 16384, gy := 0 } }
          : TickInput).sample.ax - ({ calibratedState with accelXOffset := -1 }
          : DriverState).accelXOffset = 32768
      ∧ rawAccelX { calibratedState with accelXOffset := -1 }
          { now := 10, available := 14, sample := { ax := 32767, az := 16384, gy := 0 } }
          = -32768
      ∧ rawAccelX { calibratedState with accelXOffset := -1 }
          { now := 10, available := 14, sample := { ax := 32767, az := 16384, gy := 0 } }
          ≠ 32767 - (-1) := by
  refine ⟨by decide, by decide, by decide⟩

/-- C26 (amended): the calibrated accel-axis value the filter uses is
`a − accelXOffset` converted to `int16_t`, that is, reduced modulo `2^16` into
`[-32768, 32767]`; it equals `a − accelXOffset` as integers whenever that
difference fits in 16 bits, and likewise for the gyro axis with `gyroYOffset`;
the accel-reference axis is used uncorrected.  In that case the filter reads
`atan2(a − accelXOffset, az)` and the gyro rate `(g − gyroYOffset) / 131`. -/
theorem offsets_applied_by_subtraction (env : Env) (s : DriverState) (inp : TickInput)
    (hx1 : -32768 ≤ inp.sample.ax - s.accelXOffset)
    (hx2 : inp.sample.ax - s.accelXOffset ≤ 32767)
    (hg1 : -32768 ≤ inp.sample.gy - s.gyroYOffset)
    (hg2 : inp.sample.gy - s.gyroYOffset ≤ 32767)
    (hz1 : -32768 ≤ inp.sample.az) (hz2 : inp.sample.az ≤ 32767) :
    rawAccelX s inp = inp.sample.ax - s.accelXOffset
      ∧ rawGyroY s inp = inp.sample.gy - s.gyroYOffset
      ∧ rawAccelZ inp = inp.sample.az
      ∧ tickGyroRate s inp = ((inp.sample.gy - s.gyroYOffset : Int) : ℚ) / 131
      ∧ tickFilteredAngle env s inp
          = env.FILTER_ALPHA
              * (s.filteredAngle
                  + ((inp.sample.gy - s.gyroYOffset : Int) : ℚ) / 131 * tickDt s inp)
            + (1 - env.FILTER_ALPHA)
              * env.atan2Deg (inp.sample.ax - s.accelXOffset) inp.sample.az := by
  have ex : rawAccelX s inp = inp.sample.ax - s.accelXOffset := toInt16_of_range _ hx1 hx2
  have eg : rawGyroY s inp = inp.sample.gy - s.gyroYOffset := toInt16_of_range _ hg1 hg2
  have ez : rawAccelZ inp = inp.sample.az := toInt16_of_range _ hz1 hz2
  refine ⟨ex, eg, ez, ?_, ?_⟩
  · rw [tickGyroRate, eg]
  · rw [tickFilteredAngle, tickGyroRate, ex, eg, ez]

/-- An instance of the amended C26: offsets 120 and -7, raw sample
(500, 16384, 30): the filter sees 380 on the accel axis and 37 on the gyro
axis. -/
theorem offsets_applied_by_subtraction_witness :
    rawAccelX { calibratedState with accelXOffset := 120, gyroYOffset := -7 }
        { now := 10, available := 14, sample := { ax := 500, az := 16384, gy := 30 } } = 380
      ∧ rawGyroY { calibratedState with accelXOffset := 120, gyroYOffset := -7 }
        { now := 10, available := 14, sample := { ax := 500, az := 16384, gy := 30 } } = 37
      ∧ rawAccelZ
        { now := 10, available := 14, sample := { ax := 500, az := 16384, gy := 30 } } = 16384 :=
  have h := offsets_applied_by_subtraction sampleEnv
    { calibratedState with accelXOffset := 120, gyroYOffset := -7 }
    { now := 10, available := 14, sample := { ax := 500, az := 16384, gy := 30 } }
    (by decide) (by decide) (by decide) (by decide) (by decide) (by decide)
  ⟨h.1, h.2.1, h.2.2.1⟩

/-! ### Direction lines -/

/-- C28: for each wheel and every input of `setMotorSpeed`, the direction lines
follow the sign of the actuated speed: forward line active and reverse line
inactive when it is positive, the opposite when it is negative, both lines
inactive exactly when the actuated magnitude is zero; the two lines of a wheel
are never both active. -/
theorem direction_lines_follow_sign (s : DriverState) (speedLeft speedRight : Int) :
    ∃ a b : Int,
      (setMotorSpeed s speedLeft speedRight).motorLog = (a, b) :: s.motorLog
        ∧ (0 < a → (setMotorSpeed s speedLeft speedRight).pins.IN1 = true
            ∧ (setMotorSpeed s speedLeft speedRight).pins.IN2 = false)
        ∧ (a < 0 → (setMotorSpeed s speedLeft speedRight).pins.IN1 = false
            ∧ (setMotorSpeed s speedLeft speedRight).pins.IN2 = true)
        ∧ (((setMotorSpeed s speedLeft speedRight).pins.IN1 = false
            ∧ (setMotorSpeed s speedLeft speedRight).pins.IN2 = false)
            ↔ (setMotorSpeed s speedLeft speedRight).pins.ENA = 0)
        ∧ ¬ ((setMotorSpeed s speedLeft speedRight).pins.IN1 = true
            ∧ (setMotorSpeed s speedLeft speedRight).pins.IN2 = true)
        ∧ (0 < b → (setMotorSpeed s speedLeft speedRight).pins.IN3 = true
            ∧ (setMotorSpeed s speedLeft speedRight).pins.IN4 = false)
        ∧ (b < 0 → (setMotorSpeed s speedLeft speedRight).pins.IN3 = false
            ∧ (setMotorSpeed s speedLeft speedRight).pins.IN4 = true)
        ∧ (((setMotorSpeed s speedLeft speedRight).pins.IN3 = false
            ∧ (setMotorSpeed s speedLeft speedRight).pins.IN4 = false)
            ↔ (setMotorSpeed s speedLeft speedRight).pins.ENB = 0)
        ∧ ¬ ((setMotorSpeed s speedLeft speedRight).pins.IN3 = true
            ∧ (setMotorSpeed s speedLeft speedRight).pins.IN4 = true) := by
  refine ⟨wheelSpeed (if !s.motorsEnabled then 0 else speedLeft),
    wheelSpeed (if !s.motorsEnabled then 0 else speedRight), rfl, ?_⟩
  have hl := wheelSpeed_range (if !s.motorsEnabled then 0 else speedLeft)
  have hr := wheelSpeed_range (if !s.motorsEnabled then 0 else speedRight)
  have hal := absInt_of_small (wheelSpeed (if !s.motorsEnabled then 0 else speedLeft))
    (by omega) (by omega)
  have har := absInt_of_small (wheelSpeed (if !s.motorsEnabled then 0 else speedRight))
    (by omega) (by omega)
  simp only [setMotorSpeed, hal, har]
  generalize wheelSpeed (if !s.motorsEnabled then 0 else speedLeft) = a at hl
  generalize wheelSpeed (if !s.motorsEnabled then 0 else speedRight) = b at hr
  unfold wheelDirection
  refine ⟨?_, ?_, ?_, ?_, ?_, ?_, ?_, ?_⟩
  · intro h; simp [h]
  · intro h; simp [h, not_lt.mpr (le_of_lt h)]
  · split_ifs <;> simp <;> omega
  · split_ifs <;> simp
  · intro h; simp [h]
  · intro h; simp [h, not_lt.mpr (le_of_lt h)]
  · split_ifs <;> simp <;> omega
  · split_ifs <;> simp

/-- An instance of C28: targets 45 and -300 give forward on the left wheel and
reverse on the right wheel. -/
theorem direction_lines_follow_sign_witness :
    (setMotorSpeed calibratedState 45 (-300)).pins
        = { IN1 := true, IN2 := false, IN3 := false, IN4 := true, ENA := 80, ENB := 255 }
      ∧ ∃ a b : Int, (setMotorSpeed calibratedState 45 (-300)).motorLog
          = (a, b) :: calibratedState.motorLog :=
  ⟨by simp [setMotorSpeed, calibratedState, initialState]; decide,
    (direction_lines_follow_sign calibratedState 45 (-300)).imp
      fun _ h => h.imp fun _ h' => h'.1⟩

/-! ### Calibration -/

/-- C27: for every sequence of 200 signed 16-bit sample pairs read during
`calibrateMPU`, afterwards `accelXOffset` is the sum of the accel-axis samples
divided by 200 with C integer division, `gyroYOffset` is the same mean of the
gyro-axis samples, `targetAngle` and `filteredAngle` are 0, and nothing else is
written: gains, motion command, `motorsEnabled`, `errorSum` and `lastError` are
unchanged. -/
theorem calibration_sets_integer_means (s : DriverState) (reads : Nat → RawImuSample)
    (hrange : ∀ i, i < 200 →
      (-32768 ≤ (reads i).ax ∧ (reads i).ax ≤ 32767)
        ∧ (-32768 ≤ (reads i).gy ∧ (reads i).gy ≤ 32767)) :
    calibrateMPU s reads =
        { s with
          accelXOffset := Int.tdiv (Finset.sum (Finset.range 200) (fun i => (reads i).ax)) 200
          gyroYOffset := Int.tdiv (Finset.sum (Finset.range 200) (fun i => (reads i).gy)) 200
          targetAngle := 0
          filteredAngle := 0 }
      ∧ (calibrateMPU s reads).Kp = s.Kp ∧ (calibrateMPU s reads).Ki = s.Ki
      ∧ (calibrateMPU s reads).Kd = s.Kd
      ∧ (calibrateMPU s reads).webMoveX = s.webMoveX
      ∧ (calibrateMPU s reads).webMoveY = s.webMoveY
      ∧ (calibrateMPU s reads).motorsEnabled = s.motorsEnabled
      ∧ (calibrateMPU s reads).errorSum = s.errorSum
      ∧ (calibrateMPU s reads).lastError = s.lastError := by
  obtain ⟨hx, hg⟩ := calibrateMPU_offsets s reads hrange
  have hframe := calibrateMPU_frame s reads
  rw [hx, hg] at hframe
  refine ⟨hframe, ?_, ?_, ?_, ?_, ?_, ?_, ?_, ?_⟩ <;> rw [hframe]

/-- An instance of C27: 200 identical samples (120 on accel X, -7 on gyro Y)
give the offsets 120 and -7. -/
theorem calibration_sets_integer_means_witness :
    (∀ i, i < 200 →
      (-32768 ≤ (uprightReads i).ax ∧ (uprightReads i).ax ≤ 32767)
        ∧ (-32768 ≤ (uprightReads i).gy ∧ (uprightReads i).gy ≤ 32767))
      ∧ calibrateMPU initialState uprightReads =
        { initialState with accelXOffset := 120, gyroYOffset := -7, targetAngle := 0,
                            filteredAngle := 0 } := by
  refine ⟨uprightReads_in_range, ?_⟩
  rw [(calibration_sets_integer_means initialState uprightReads uprightReads_in_range).1]
  have hx : Int.tdiv (Finset.sum (Finset.range 200) (fun i => (uprightReads i).ax)) 200 = 120 := by
    simp [uprightReads]
    decide
  have hg : Int.tdiv (Finset.sum (Finset.range 200) (fun i => (uprightReads i).gy)) 200 = -7 := by
    simp [uprightReads]
    decide
  rw [hx, hg]

/-- C30: for every sequence of 200 signed 16-bit samples, the offset
`calibrateMPU` computes as `sum / 200` (truncating division) lies between any
lower and upper bound of the samples of that axis, in particular between the
smallest and the largest sample; it is within the signed 16-bit range, so the
stored offset is the quotient itself (no wrap); and if all 200 samples equal
`v`, the offset is exactly `v`. -/
theorem calibration_offset_between_samples (s : DriverState) (reads : Nat → RawImuSample)
    (loX hiX loG hiG : Int)
    (hrange : ∀ i, i < 200 →
      (-32768 ≤ (reads i).ax ∧ (reads i).ax ≤ 32767)
        ∧ (-32768 ≤ (reads i).gy ∧ (reads i).gy ≤ 32767))
    (hX : ∀ i, i < 200 → loX ≤ (reads i).ax ∧ (reads i).ax ≤ hiX)
    (hG : ∀ i, i < 200 → loG ≤ (reads i).gy ∧ (reads i).gy ≤ hiG) :
    (loX ≤ (calibrateMPU s reads).accelXOffset ∧ (calibrateMPU s reads).accelXOffset ≤ hiX)
      ∧ (loG ≤ (calibrateMPU s reads).gyroYOffset ∧ (calibrateMPU s reads).gyroYOffset ≤ hiG)
      ∧ (-32768 ≤ (calibrateMPU s reads).accelXOffset
          ∧ (calibrateMPU s reads).accelXOffset ≤ 32767)
      ∧ (-32768 ≤ (calibrateMPU s reads).gyroYOffset
          ∧ (calibrateMPU s reads).gyroYOffset ≤ 32767)
      ∧ (calibrateMPU s reads).accelXOffset
          = Int.tdiv (Finset.sum (Finset.range 200) (fun i => (reads i).ax)) 200
      ∧ (calibrateMPU s reads).gyroYOffset
          = Int.tdiv (Finset.sum (Finset.range 200) (fun i => (reads i).gy)) 200
      ∧ (loX = hiX → (calibrateMPU s reads).accelXOffset = loX)
      ∧ (loG = hiG → (calibrateMPU s reads).gyroYOffset = loG) := by
  obtain ⟨hx, hg⟩ := calibrateMPU_offsets s reads hrange
  have bx := sum_range_bounds (fun i => (reads i).ax) loX hiX 200 hX
  have bg := sum_range_bounds (fun i => (reads i).gy) loG hiG 200 hG
  have mx := tdiv_mean_bounds _ loX hiX (by simpa using bx.1) (by simpa using bx.2)
  have mg := tdiv_mean_bounds _ loG hiG (by simpa using bg.1) (by simpa using bg.2)
  have rx := sum_range_bounds (fun i => (reads i).ax) (-32768) 32767 200
    (fun i hi => (hrange i hi).1)
  have rg := sum_range_bounds (fun i => (reads i).gy) (-32768) 32767 200
    (fun i hi => (hrange i hi).2)
  have nx := tdiv_mean_bounds _ (-32768) 32767 (by simpa using rx.1) (by simpa using rx.2)
  have ng := tdiv_mean_bounds _ (-32768) 32767 (by simpa using rg.1) (by simpa using rg.2)
  rw [hx, hg]
  refine ⟨mx, mg, nx, ng, rfl, rfl, ?_, ?_⟩
  · intro h; omega
  · intro h; omega

/-- An instance of C30: 200 samples all equal to 120 on accel X and to -7 on
gyro Y. -/
theorem calibration_offset_between_samples_witness :
    (∀ i, i < 200 → (120 : Int) ≤ (uprightReads i).ax ∧ (uprightReads i).ax ≤ 120)
      ∧ (∀ i, i < 200 → (-7 : Int) ≤ (uprightReads i).gy ∧ (uprightReads i).gy ≤ -7)
      ∧ (calibrateMPU initialState uprightReads).accelXOffset = 120
      ∧ (calibrateMPU initialState uprightReads).gyroYOffset = -7 := by
  have hX : ∀ i, i < 200 → (120 : Int) ≤ (uprightReads i).ax ∧ (uprightReads i).ax ≤ 120 := by
    intro i _; simp [uprightReads]
  have hG : ∀ i, i < 200 → (-7 : Int) ≤ (uprightReads i).gy ∧ (uprightReads i).gy ≤ -7 := by
    intro i _; simp [uprightReads]
  have h := calibration_offset_between_samples initialState uprightReads 120 120 (-7) (-7)
    uprightReads_in_range hX hG
  exact ⟨hX, hG, h.2.2.2.2.2.2.1 rfl, h.2.2.2.2.2.2.2 rfl⟩

/-! ### Motor-speed summary -/

/-- C29: the motor-speed summary returned by `getCurrentRobotStatus` is a
function of the stored motion command alone (two states with the same
`webMoveX` and `webMoveY` report the same summary, whatever their PID state and
pins); for every stored command (both axes within `[-100, 100]`) its magnitude
is `(|webMoveX| + |webMoveY|) / 2` with integer division, its sign is that of
`webMoveX` when `webMoveX ≠ 0` and otherwise that of `webMoveY`, it is 0 when
both are 0, and it lies in `[-100, 100]`; this covers every state reachable
from startup. -/
theorem status_summary_from_motion_command (env : Env) (s t : DriverState)
    (h : motionCommandBounded s) :
    (getCurrentRobotStatus s).2.motorSpeed
        = (if s.webMoveX ≠ 0 then Int.sign s.webMoveX else Int.sign s.webMoveY)
            * ((|s.webMoveX| + |s.webMoveY|) / 2)
      ∧ (s.webMoveX = 0 → s.webMoveY = 0 → (getCurrentRobotStatus s).2.motorSpeed = 0)
      ∧ (-100 ≤ (getCurrentRobotStatus s).2.motorSpeed
          ∧ (getCurrentRobotStatus s).2.motorSpeed ≤ 100)
      ∧ (t.webMoveX = s.webMoveX → t.webMoveY = s.webMoveY →
          (getCurrentRobotStatus t).2.motorSpeed = (getCurrentRobotStatus s).2.motorSpeed)
      ∧ (∀ ops : List Op,
          -100 ≤ (getCurrentRobotStatus (run env initialState ops)).2.motorSpeed
            ∧ (getCurrentRobotStatus (run env initialState ops)).2.motorSpeed ≤ 100) := by
  refine ⟨status_motorSpeed_of_bounded s h, ?_, status_motorSpeed_bounds s h, ?_, ?_⟩
  · intro hx hy
    rw [status_motorSpeed_of_bounded s h, hx, hy]
    decide
  · intro hx hy
    simp only [getCurrentRobotStatus, hx, hy]
  · intro ops
    exact status_motorSpeed_bounds _
      (run_motionCommandBounded env ops initialState
        (by simp [motionCommandBounded, initialState]))

/-- An instance of C29: the stored command (60, -30) is summarised as 45, and
the driver that has just driven its wheels at full duty reports the same
summary as the idle one with the same command. -/
theorem status_summary_from_motion_command_witness :
    motionCommandBounded (setRobotMovement calibratedState 60 (-30))
      ∧ (getCurrentRobotStatus (setRobotMovement calibratedState 60 (-30))).2.motorSpeed = 45
      ∧ (getCurrentRobotStatus
          (setRobotMovement (runBalanceLoop sampleEnv (tunedStateWithNextError 20)
            (levelTickAt 10)) 60 (-30))).2.motorSpeed
          = (getCurrentRobotStatus (setRobotMovement calibratedState 60 (-30))).2.motorSpeed := by
  have hb : motionCommandBounded (setRobotMovement calibratedState 60 (-30)) := by
    simp [motionCommandBounded, setRobotMovement, constrainInt]
  have h := status_summary_from_motion_command sampleEnv
    (setRobotMovement calibratedState 60 (-30))
    (setRobotMovement (runBalanceLoop sampleEnv (tunedStateWithNextError 20) (levelTickAt 10))
      60 (-30)) hb
  refine ⟨hb, ?_, h.2.2.2.1 rfl rfl⟩
  rw [h.1]
  simp [setRobotMovement, constrainInt]
  decide

end BalanceDriver
